import Mathlib

/-
Verification development for the sim2real evaluation harness.

The definitions below are a shallow embedding of the Rust sources:
  - base_api.rs, message.rs, reminder.rs, food_services.rs, travel.rs
  - world_state.rs (execute_function_calls, equals_ground_truth)
  - parse_ast.rs (decode_function_list and its helpers)
  - ace_problem.rs (AgentProblemState, handle_python_response)
  - ace_evaluator.rs (normal_checker and evaluate_normal_single_turn)

Modelling conventions:
  - Rust String becomes Lean String; usize/u32 become Nat; i64 becomes Int.
  - f64 (always wrapped in NotNan in the sources) becomes Rat; f64 display
    formatting is approximated by exact decimal expansion.
  - IndexMap becomes an association list with insert-or-replace-in-place
    semantics and order-insensitive equality, mirroring indexmap.
  - Rust panics (panic, unwrap, expect, assert) are modelled by the
    PRes.fatal outcome, which every caller propagates, mirroring unwinding.
  - Recoverable Result::Err values are modelled by PRes.err.
  - The external rustpython parser (text to AST) is not code of this
    repository; functions that call it take the parser as an explicit
    argument of type String -> Except String AstMod.
  - File writes are modelled by returning the list of records written.
-/

set_option maxHeartbeats 1000000
set_option linter.unusedVariables false

namespace Sim2Real

/-- Outcome of running a piece of Rust code that may return a recoverable
error (err, for Result::Err) or abort the process (fatal, for panics). -/
inductive PRes (α : Type) where
  | ok : α → PRes α
  | err : String → PRes α
  | fatal : String → PRes α
deriving Repr, DecidableEq

/-- Bind for PRes: err and fatal both short-circuit, as in Rust. -/
def PRes.bind {α β : Type} : PRes α → (α → PRes β) → PRes β
  | .ok a, f => f a
  | .err e, _ => .err e
  | .fatal m, _ => .fatal m

instance : Monad PRes where
  pure := PRes.ok
  bind := PRes.bind

/-- Map over the ok value of a PRes. -/
def PRes.map {α β : Type} (f : α → β) : PRes α → PRes β
  | .ok a => .ok (f a)
  | .err e => .err e
  | .fatal m => .fatal m

/-- True iff the outcome is ok. -/
def PRes.isOk {α : Type} : PRes α → Bool
  | .ok _ => true
  | _ => false

/-- True iff the outcome is a recoverable error. -/
def PRes.isErr {α : Type} : PRes α → Bool
  | .err _ => true
  | _ => false

/-- Association-list lookup, first match; models IndexMap::get since keys
are unique. -/
def amapGet {κ α : Type} [DecidableEq κ] : List (κ × α) → κ → Option α
  | [], _ => none
  | (k, v) :: rest, key => if k = key then some v else amapGet rest key

/-- Membership test for association lists; models IndexMap::contains_key. -/
def amapContains {κ α : Type} [DecidableEq κ] (m : List (κ × α)) (k : κ) : Bool :=
  (amapGet m k).isSome

/-- Insert-or-replace for association lists: replacing keeps the original
position, inserting appends; models IndexMap::insert. -/
def amapInsert {κ α : Type} [DecidableEq κ] : List (κ × α) → κ → α → List (κ × α)
  | [], key, v => [(key, v)]
  | (k, w) :: rest, key, v =>
    if k = key then (k, v) :: rest else (k, w) :: amapInsert rest key v

/-- Remove a key from an association list; models IndexMap::swap_remove
restricted to what the sources observe afterwards (membership and values;
the order perturbation of swap_remove is modelled as plain removal, which
the claims never distinguish). -/
def amapRemove {κ α : Type} [DecidableEq κ] : List (κ × α) → κ → List (κ × α)
  | [], _ => []
  | (k, v) :: rest, key => if k = key then rest else (k, v) :: amapRemove rest key

/-- Order-insensitive equality of association lists with unique keys;
models the PartialEq instance of IndexMap. -/
def amapEqb {κ α : Type} [DecidableEq κ] [DecidableEq α]
    (m₁ m₂ : List (κ × α)) : Bool :=
  m₁.length == m₂.length && m₁.all (fun kv => amapGet m₂ kv.1 == some kv.2)

/-- Prefix test on character lists (pattern first). -/
def listPrefixEq : List Char → List Char → Bool
  | [], _ => true
  | _ :: _, [] => false
  | p :: ps, c :: cs => p == c && listPrefixEq ps cs

/-- Naive substring search on character lists (pattern second). -/
def listContainsSub : List Char → List Char → Bool
  | s, pat =>
    listPrefixEq pat s ||
      (match s with
       | [] => false
       | _ :: rest => listContainsSub rest pat)

/-- Substring test; models Rust str::contains (an empty needle always
matches). -/
def strContainsSub (s pat : String) : Bool :=
  listContainsSub s.data pat.data

/-- Suffix test; models Rust str::ends_with. -/
def strEndsWith (s suffix : String) : Bool :=
  listPrefixEq suffix.data.reverse s.data.reverse

/-- Prefix test; models Rust str::starts_with. -/
def strStartsWith (s prefix0 : String) : Bool :=
  listPrefixEq prefix0.data s.data

/-- ASCII lowercasing of a string; models str::to_lowercase on the ASCII
data used by the sources. -/
def strLower (s : String) : String :=
  String.mk (s.data.map Char.toLower)

/-- Decimal expansion helper: digits of r / d, at most fuel digits. -/
def ratFracDigits : Nat → Nat → Nat → String
  | 0, _, _ => ""
  | _, 0, _ => ""
  | fuel + 1, r, d =>
    let r10 := r * 10
    toString (r10 / d) ++ ratFracDigits fuel (r10 % d) d

/-- Display of an f64-valued rational, mirroring Rust f64 Display: no
trailing ".0" on integral values. -/
def ratDisplay (q : Rat) : String :=
  let sign := if q.num < 0 then "-" else ""
  let a := q.num.natAbs
  let ip := a / q.den
  let r := a % q.den
  if r == 0 then sign ++ toString ip
  else sign ++ toString ip ++ "." ++ ratFracDigits 17 r q.den

/-- Display of an f64-valued rational in JSON output, mirroring serde_json:
integral floats print with a trailing ".0". -/
def ratJsonDisplay (q : Rat) : String :=
  if q.den == 1 then
    (if q.num < 0 then "-" else "") ++ toString q.num.natAbs ++ ".0"
  else ratDisplay q

/-- Hexadecimal digit for JSON escapes. -/
def hexDigit (n : Nat) : String :=
  if n < 10 then toString n
  else if n == 10 then "a" else if n == 11 then "b" else if n == 12 then "c"
  else if n == 13 then "d" else if n == 14 then "e" else "f"

/-- Escape one character as in serde_json string output. -/
def jsonEscapeChar (c : Char) : String :=
  if c = '"' then "\\\""
  else if c = '\\' then "\\\\"
  else if c = '\n' then "\\n"
  else if c = '\r' then "\\r"
  else if c = '\t' then "\\t"
  else if c.toNat < 32 then
    "\\u00" ++ hexDigit (c.toNat / 16) ++ hexDigit (c.toNat % 16)
  else String.singleton c

/-- Escape and quote a string as in serde_json output. -/
def jsonQuote (s : String) : String :=
  "\"" ++ String.join (s.data.map jsonEscapeChar) ++ "\""

/-- JSON-like values: the image of serde_json::Value. Integers and floats
are separate variants, as in serde_json::Number, and compare unequal even
at the same numeric value. Objects are insertion-ordered key-value lists. -/
inductive Json where
  | null : Json
  | bool : Bool → Json
  | int : Int → Json
  | float : Rat → Json
  | str : String → Json
  | arr : List Json → Json
  | obj : List (String × Json) → Json
deriving Repr

mutual

/-- Serialize a JSON value to text, mirroring serde_json::to_string. -/
def Json.serialize : Json → String
  | .null => "null"
  | .bool b => if b then "true" else "false"
  | .int i => (if i < 0 then "-" else "") ++ toString i.natAbs
  | .float q => ratJsonDisplay q
  | .str s => jsonQuote s
  | .arr xs => "[" ++ Json.serializeArrItems xs ++ "]"
  | .obj kvs => "\x7b" ++ Json.serializeObjItems kvs ++ "\x7d"

/-- Comma-joined serialization of array elements. -/
def Json.serializeArrItems : List Json → String
  | [] => ""
  | [x] => Json.serialize x
  | x :: y :: rest => Json.serialize x ++ "," ++ Json.serializeArrItems (y :: rest)

/-- Comma-joined serialization of object entries. -/
def Json.serializeObjItems : List (String × Json) → String
  | [] => ""
  | [(k, v)] => jsonQuote k ++ ":" ++ Json.serialize v
  | (k, v) :: p :: rest =>
    jsonQuote k ++ ":" ++ Json.serialize v ++ "," ++ Json.serializeObjItems (p :: rest)

end

mutual

/-- Equality of JSON values, mirroring the PartialEq instance of
serde_json::Value: arrays are compared element-wise in order, objects are
compared as maps (order-insensitively), numbers compare by variant. -/
def Json.beq : Json → Json → Bool
  | .null, .null => true
  | .bool a, .bool b => a == b
  | .int a, .int b => a == b
  | .float a, .float b => a == b
  | .str a, .str b => a == b
  | .arr a, .arr b => Json.beqList a b
  | .obj a, .obj b => a.length == b.length && Json.beqObjSub a b
  | _, _ => false

/-- Element-wise equality of JSON arrays. -/
def Json.beqList : List Json → List Json → Bool
  | [], [] => true
  | x :: xs, y :: ys => Json.beq x y && Json.beqList xs ys
  | _, _ => false

/-- Pointwise containment of the first object in the second (keys are
unique, so together with equal lengths this is map equality). -/
def Json.beqObjSub : List (String × Json) → List (String × Json) → Bool
  | [], _ => true
  | (k, v) :: xs, b =>
    (match amapGet b k with
     | some w => Json.beq v w
     | none => false) && Json.beqObjSub xs b

end

instance : BEq Json := ⟨Json.beq⟩

/-- Read a JSON value as an f64 when possible; models Value::as_f64. -/
def Json.asF64 : Json → Option Rat
  | .int i => some (i : Rat)
  | .float q => some q
  | _ => none

/-- Read a JSON string; models Value::as_str. -/
def Json.asStr : Json → Option String
  | .str s => some s
  | _ => none

/-- Read a JSON array; models Value::as_array. -/
def Json.asArr : Json → Option (List Json)
  | .arr xs => some xs
  | _ => none

/-- Read a JSON object; models Value::as_object. -/
def Json.asObj : Json → Option (List (String × Json))
  | .obj kvs => some kvs
  | _ => none

/-- Result of one tool invocation, returned to the LLM; from base_api.rs. -/
structure ExecutionResult where
  status : Bool
  message : String
deriving Repr, DecidableEq

/-- Successful execution result constructor; from base_api.rs. -/
def ExecutionResult.success (message : String) : ExecutionResult :=
  ⟨true, message⟩

/-- Failed execution result constructor; from base_api.rs. -/
def ExecutionResult.error (message : String) : ExecutionResult :=
  ⟨false, message⟩

/-- Serialize one ExecutionResult as serde_json does (field order status,
message). -/
def ExecutionResult.toJson (r : ExecutionResult) : Json :=
  .obj [("status", .bool r.status), ("message", .str r.message)]

/-- Shared connectivity state; from base_api.rs. -/
structure BaseApi where
  wifi : Bool
  logged_in : Bool
deriving Repr, DecidableEq

/-- Turn on wifi; from base_api.rs. -/
def BaseApi.turn_on_wifi (b : BaseApi) : BaseApi × ExecutionResult :=
  ({ b with wifi := true }, ⟨true, "Wi-Fi has been turned on"⟩)

/-- Log in the device; from base_api.rs. -/
def BaseApi.login_device (b : BaseApi) : BaseApi × ExecutionResult :=
  ({ b with logged_in := true }, ⟨true, "Device has been logged in"⟩)

/-- Ground-truth comparison for the base state; from base_api.rs. -/
def BaseApi.equals_ground_truth (b gt : BaseApi) : Except String Unit :=
  if b.wifi != gt.wifi then
    .error ("Wi-Fi status does not match. expected: " ++ toString gt.wifi
      ++ ", got: " ++ toString b.wifi)
  else if b.logged_in != gt.logged_in then
    .error ("Logged-in status does not match. expected: " ++ toString gt.logged_in
      ++ ", got: " ++ toString b.logged_in)
  else .ok ()

/-- Number of days in a month of the proleptic Gregorian calendar. -/
def daysInMonth (y m : Nat) : Nat :=
  if m = 2 then
    if y % 4 = 0 && (y % 100 != 0 || y % 400 = 0) then 29 else 28
  else if m = 4 || m = 6 || m = 9 || m = 11 then 30
  else 31

/-- Parse a "YYYY-MM-DD" date into a totally ordered key, mirroring
chrono::NaiveDate::parse_from_str with format %Y-%m-%d (None on failure). -/
def parseDateKey (s : String) : Option Nat :=
  match s.splitOn "-" with
  | [ys, ms, ds] =>
    if ys.length > 0 && ys.data.all Char.isDigit
        && ms.length > 0 && ms.data.all Char.isDigit
        && ds.length > 0 && ds.data.all Char.isDigit then
      let y := ys.toNat!
      let m := ms.toNat!
      let d := ds.toNat!
      if 1 ≤ m && m ≤ 12 && 1 ≤ d && d ≤ daysInMonth y m then
        some (y * 10000 + m * 100 + d)
      else none
    else none
  | _ => none

/-- Ordering key used for messages without a time in get_latest_message_id:
chrono::NaiveDate::MIN, below every parseable date key. -/
def dateKeyMin : Nat := 0

/-- Ordering key used for messages without a time in get_earliest_message_id:
chrono::NaiveDate::MAX, above every parseable date key. -/
def dateKeyMax : Nat := 1000000000

/-- Select the entry with the maximal key, later entries winning ties;
mirrors Iterator::max_by_key. -/
def selectMaxByKeyLast {α : Type} : List (α × Nat) → Option α
  | [] => none
  | (a, k) :: rest =>
    match selectMaxByKeyLast rest, (rest.map Prod.snd).max? with
    | some b, some m => if m ≥ k then some b else some a
    | _, _ => some a

/-- Select the entry with the minimal key, earlier entries winning ties;
mirrors Iterator::min_by_key. -/
def selectMinByKeyFirst {α : Type} : List (α × Nat) → Option α
  | [] => none
  | (a, k) :: rest =>
    match selectMinByKeyFirst rest, (rest.map Prod.snd).min? with
    | some b, some m => if m < k then some b else some a
    | _, _ => some a

/-- User record of the messaging domain; from message.rs. -/
structure MessageUser where
  user_id : String
  phone_number : String
  occupation : String
deriving Repr, DecidableEq

/-- One inbox message; from message.rs. -/
structure Message where
  sender_id : String
  receiver_id : String
  message : String
  time : Option String
deriving Repr, DecidableEq

/-- Messaging domain state; from message.rs. -/
structure MessageApi where
  base_api : BaseApi
  max_capacity : Option Nat
  user_list : Option (List (String × MessageUser))
  inbox : List (String × Message)
  message_id_counter : Option Nat
deriving Repr, DecidableEq

/-- Serde encoding of a Message (time omitted when None). -/
def Message.toJson (m : Message) : Json :=
  .obj ([("sender_id", .str m.sender_id), ("receiver_id", .str m.receiver_id),
    ("message", .str m.message)] ++
    (match m.time with
     | some t => [("time", .str t)]
     | none => []))

/-- Serde encoding of an inbox map. -/
def inboxToJson (m : List (String × Message)) : Json :=
  .obj (m.map (fun kv => (kv.1, kv.2.toJson)))

/-- Send a message; from message.rs MessageApi::send_message. -/
def MessageApi.send_message (api : MessageApi)
    (sender_name receiver_name message : String) :
    PRes (MessageApi × ExecutionResult) :=
  if !api.base_api.logged_in then
    .ok (api, .error "Device not logged in, unable to send message")
  else if !api.base_api.wifi then
    .ok (api, .error "Wi-Fi is turned off, cannot send messages at this time")
  else
    match api.max_capacity with
    | none => .fatal "unwrap of max_capacity failed"
    | some cap =>
      if api.inbox.length ≥ cap then
        .ok (api, .error "Inbox capacity is full. You need to ask the user which message to delete.")
      else
        match api.user_list with
        | none => .fatal "unwrap of user_list failed"
        | some users =>
          match amapGet users sender_name, amapGet users receiver_name with
          | some sender, some receiver =>
            match api.message_id_counter with
            | none => .fatal "unwrap of message_id_counter failed"
            | some ctr =>
              let ctr1 := ctr + 1
              let newMsg : Message :=
                ⟨sender.user_id, receiver.user_id, message, none⟩
              let api1 := { api with
                message_id_counter := some ctr1,
                inbox := amapInsert api.inbox (toString ctr1) newMsg }
              .ok (api1, .success ("Message successfully sent to " ++ receiver_name ++ "."))
          | _, _ => .ok (api, .error "Sender or receiver does not exist")

/-- Delete a message by id; from message.rs MessageApi::delete_message. -/
def MessageApi.delete_message (api : MessageApi) (message_id : Nat) :
    PRes (MessageApi × ExecutionResult) :=
  let mid := toString message_id
  if !api.base_api.logged_in then
    .ok (api, .error "Device not logged in, unable to delete message")
  else if !amapContains api.inbox mid then
    .ok (api, .error "Message ID does not exist")
  else
    .ok ({ api with inbox := amapRemove api.inbox mid },
      .success ("Message ID " ++ mid ++ " has been successfully deleted."))

/-- View messages between two users; from message.rs. -/
def MessageApi.view_messages_between_users (api : MessageApi)
    (sender_name receiver_name : String) : PRes ExecutionResult :=
  if !api.base_api.logged_in then
    .ok (.error "Device not logged in, unable to view message information")
  else
    match api.user_list with
    | none => .fatal "unwrap of user_list failed"
    | some users =>
      match amapGet users sender_name, amapGet users receiver_name with
      | some sender, some receiver =>
        let sel := api.inbox.filter (fun kv =>
          kv.2.sender_id == sender.user_id && kv.2.receiver_id == receiver.user_id)
        if sel.isEmpty then
          .ok (.error "No related message records found")
        else
          .ok (.success ("Messages between users: " ++ (inboxToJson sel).serialize))
      | _, _ => .ok (.error "Sender or receiver does not exist")

/-- Search a user's messages for a keyword; from message.rs. -/
def MessageApi.search_messages (api : MessageApi)
    (user_name keyword : String) : PRes ExecutionResult :=
  match api.user_list with
  | none => .fatal "unwrap of user_list failed"
  | some users =>
    match amapGet users user_name with
    | none => .ok (.error "User does not exist")
    | some user =>
      let sel := api.inbox.filter (fun kv =>
        (kv.2.sender_id == user.user_id || kv.2.receiver_id == user.user_id)
          && strContainsSub (strLower kv.2.message) (strLower keyword))
      if sel.isEmpty then
        .ok (.error "No related message records found")
      else
        .ok (.success ("Matched messages: " ++ (inboxToJson sel).serialize))

/-- List all message times with ids; from message.rs. -/
def MessageApi.get_all_message_times_with_ids (api : MessageApi) :
    PRes ExecutionResult :=
  if !api.base_api.logged_in then
    .ok (.error "Device not logged in, unable to retrieve all message times and their corresponding message IDs.")
  else
    let json : Json := .obj (api.inbox.map (fun kv =>
      (kv.1, match kv.2.time with
             | some t => .str t
             | none => Json.null)))
    .ok (.success ("Message times with IDs: " ++ json.serialize))

/-- Compute the date key of each inbox entry, as get_latest/get_earliest do:
missing time maps to the given default, an unparseable time is a panic. -/
def inboxDateKeys (defaultKey : Nat) :
    List (String × Message) → PRes (List (String × Nat))
  | [] => .ok []
  | (id, msg) :: rest =>
    match msg.time with
    | none =>
      (inboxDateKeys defaultKey rest).map (fun tail => (id, defaultKey) :: tail)
    | some t =>
      match parseDateKey t with
      | none => .fatal "date parse failed"
      | some k =>
        (inboxDateKeys defaultKey rest).map (fun tail => (id, k) :: tail)

/-- Find the latest message id; from message.rs. -/
def MessageApi.get_latest_message_id (api : MessageApi) : PRes ExecutionResult :=
  if !api.base_api.logged_in then
    .ok (.error "Device not logged in, unable to retrieve the latest sent message ID.")
  else if api.inbox.isEmpty then
    .ok (.error "No message records found")
  else
    (inboxDateKeys dateKeyMin api.inbox).bind (fun keyed =>
      match selectMaxByKeyLast keyed with
      | some id => .ok (.success ("The latest message ID is " ++ id))
      | none => .fatal "max_by_key on empty iterator")

/-- Find the earliest message id; from message.rs. -/
def MessageApi.get_earliest_message_id (api : MessageApi) : PRes ExecutionResult :=
  if !api.base_api.logged_in then
    .ok (.error "Device not logged in, unable to retrieve the earliest sent message ID.")
  else if api.inbox.isEmpty then
    .ok (.error "No message records found")
  else
    (inboxDateKeys dateKeyMax api.inbox).bind (fun keyed =>
      match selectMinByKeyFirst keyed with
      | some id => .ok (.success ("The earliest message ID is " ++ id))
      | none => .fatal "min_by_key on empty iterator")

/-- Ground-truth comparison of the messaging domain; from message.rs. -/
def MessageApi.equals_ground_truth (api gt : MessageApi) : PRes Unit :=
  match api.base_api.equals_ground_truth gt.base_api with
  | .error e => .err e
  | .ok () =>
    let capCheck : PRes Unit :=
      match gt.max_capacity with
      | some gtCap =>
        match api.max_capacity with
        | none => .fatal "unwrap of max_capacity failed"
        | some cap =>
          if cap != gtCap then
            .err ("max_capacity does not match ground truth. Expected: "
              ++ toString gtCap ++ ", got: " ++ toString cap)
          else .ok ()
      | none => .ok ()
    capCheck.bind (fun _ =>
      let userCheck : PRes Unit :=
        match gt.user_list with
        | some gtUsers =>
          match api.user_list with
          | none => .fatal "unwrap of user_list failed"
          | some users =>
            if !amapEqb users gtUsers then
              .err "user_list does not match ground truth."
            else .ok ()
        | none => .ok ()
      userCheck.bind (fun _ =>
        if !amapEqb api.inbox gt.inbox then
          .err "inbox does not match ground truth."
        else
          match gt.message_id_counter with
          | some gtCtr =>
            match api.message_id_counter with
            | none => .fatal "unwrap of message_id_counter failed"
            | some ctr =>
              if ctr != gtCtr then
                .err ("message_id_counter does not match ground truth. Expected: "
                  ++ toString gtCtr ++ ", got: " ++ toString ctr)
              else .ok ()
          | none => .ok ()))

/-- One reminder record; from reminder.rs. -/
structure Reminder where
  reminder_id : Nat
  title : String
  description : String
  time : String
  notified : Bool
deriving Repr, DecidableEq

/-- Reminder domain state; from reminder.rs. -/
structure ReminderApi where
  base_api : BaseApi
  max_capacity : Nat
  reminder_list : List (Nat × Reminder)
  reminder_id_counter : Nat
deriving Repr, DecidableEq

/-- Serde encoding of a Reminder. -/
def Reminder.toJson (r : Reminder) : Json :=
  .obj [("reminder_id", .int r.reminder_id), ("title", .str r.title),
    ("description", .str r.description), ("time", .str r.time),
    ("notified", .bool r.notified)]

/-- View one reminder by title; from reminder.rs. -/
def ReminderApi.view_reminder_by_title (api : ReminderApi) (title : String) :
    PRes ExecutionResult :=
  if !api.base_api.logged_in then
    .ok ⟨false, "The device is not logged in, so you cannot view notifications"⟩
  else
    match (api.reminder_list.map Prod.snd).find? (fun r => r.title == title) with
    | some r => .ok ⟨true, r.toJson.serialize⟩
    | none => .ok ⟨false, "No reminder found with the title \x27" ++ title ++ "\x27."⟩

/-- Add a reminder; from reminder.rs. -/
def ReminderApi.add_reminder (api : ReminderApi)
    (title description time : String) : PRes (ReminderApi × ExecutionResult) :=
  if !api.base_api.logged_in then
    .ok (api, ⟨false, "Device not logged in. Unable to add a new reminder."⟩)
  else if api.reminder_list.length ≥ api.max_capacity then
    .ok (api, ⟨false, "Reminder capacity is full. Unable to add a new reminder."⟩)
  else
    let rid := api.reminder_id_counter + 1
    let api1 := { api with
      reminder_id_counter := rid,
      reminder_list := amapInsert api.reminder_list rid
        ⟨rid, title, description, time, false⟩ }
    .ok (api1, ⟨true, "Reminder \x27" ++ title ++ "\x27 was successfully added."⟩)

/-- Delete a reminder by id; from reminder.rs. -/
def ReminderApi.delete_reminder (api : ReminderApi) (reminder_id : Nat) :
    PRes (ReminderApi × ExecutionResult) :=
  if !api.base_api.logged_in then
    .ok (api, ⟨false, "Device not logged in. Unable to delete the specified reminder."⟩)
  else if !amapContains api.reminder_list reminder_id then
    .ok (api, ⟨false, "Reminder ID does not exist."⟩)
  else
    .ok ({ api with reminder_list := amapRemove api.reminder_list reminder_id },
      ⟨true, "Reminder ID " ++ toString reminder_id ++ " was successfully deleted."⟩)

/-- View all reminders; from reminder.rs. -/
def ReminderApi.view_all_reminders (api : ReminderApi) : PRes ExecutionResult :=
  if api.reminder_list.isEmpty then
    .ok ⟨false, "No reminders found."⟩
  else
    .ok ⟨true, (Json.arr ((api.reminder_list.map Prod.snd).map Reminder.toJson)).serialize⟩

/-- Modelled from the spec: ReminderApi::search_reminders is invoked by the
dispatch table in world_state.rs but its definition is not among the
sources; the spec describes the reminder domain as simple CRUD with a
keyword search, so it is modelled after the neighbouring search handlers:
case-insensitive keyword match over title and description. -/
def ReminderApi.search_reminders (api : ReminderApi) (keyword : String) :
    PRes ExecutionResult :=
  let sel := (api.reminder_list.map Prod.snd).filter (fun r =>
    strContainsSub (strLower r.title) (strLower keyword)
      || strContainsSub (strLower r.description) (strLower keyword))
  if sel.isEmpty then
    .ok ⟨false, "No matching reminders found."⟩
  else
    .ok ⟨true, (Json.arr (sel.map Reminder.toJson)).serialize⟩

/-- Modelled from the spec: ReminderApi::equals_ground_truth is invoked by
WorldState::equals_ground_truth but its definition is not among the
sources; the spec prescribes a deep field-by-field equality check with
collections compared by full equality, propagating the first error. -/
def ReminderApi.equals_ground_truth (api gt : ReminderApi) : PRes Unit :=
  match api.base_api.equals_ground_truth gt.base_api with
  | .error e => .err e
  | .ok () =>
    if api.max_capacity != gt.max_capacity then
      .err ("max_capacity does not match ground truth. Expected: "
        ++ toString gt.max_capacity ++ ", got: " ++ toString api.max_capacity)
    else if !amapEqb api.reminder_list gt.reminder_list then
      .err "reminder_list does not match ground truth."
    else if api.reminder_id_counter != gt.reminder_id_counter then
      .err ("reminder_id_counter does not match ground truth. Expected: "
        ++ toString gt.reminder_id_counter ++ ", got: "
        ++ toString api.reminder_id_counter)
    else .ok ()

/-- Food platform user; from food_services.rs. -/
structure FoodUser where
  user_id : String
  password : String
  balance : Rat
deriving Repr, DecidableEq

/-- Menu item of a merchant; from food_services.rs. -/
structure MenuItem where
  product : String
  price : Rat
deriving Repr, DecidableEq

/-- Merchant; from food_services.rs. -/
structure Merchant where
  merchant_id : String
  service_type : String
  menu : List MenuItem
deriving Repr, DecidableEq

/-- One line of a placed order; from food_services.rs. -/
structure OrderItem where
  product : String
  quantity : Nat
  price_per_unit : Rat
deriving Repr, DecidableEq

/-- One line of an order request; from food_services.rs (quantity defaults
to 1 when the argument is missing). -/
structure ArgumentItem where
  product : String
  quantity : Nat
deriving Repr, DecidableEq

/-- A placed food order; from food_services.rs. -/
structure FoodOrder where
  user_name : String
  merchant_name : String
  items : List OrderItem
  total_price : Rat
deriving Repr, DecidableEq

/-- Food ordering domain state; from food_services.rs. -/
structure FoodPlatform where
  base_api : BaseApi
  users : List (String × FoodUser)
  merchant_list : List (String × Merchant)
  logged_in_users : List String
  orders : List FoodOrder
deriving Repr, DecidableEq

/-- Serde encoding of a MenuItem. -/
def MenuItem.toJson (m : MenuItem) : Json :=
  .obj [("product", .str m.product), ("price", .float m.price)]

/-- Serde encoding of an OrderItem. -/
def OrderItem.toJson (o : OrderItem) : Json :=
  .obj [("product", .str o.product), ("quantity", .int o.quantity),
    ("price_per_unit", .float o.price_per_unit)]

/-- Serde encoding of a FoodOrder. -/
def FoodOrder.toJson (o : FoodOrder) : Json :=
  .obj [("user_name", .str o.user_name), ("merchant_name", .str o.merchant_name),
    ("items", .arr (o.items.map OrderItem.toJson)),
    ("total_price", .float o.total_price)]

/-- Debug formatting of a list of strings, as Rust Vec of String Debug. -/
def debugStrList (xs : List String) : String :=
  "[" ++ String.intercalate ", " (xs.map jsonQuote) ++ "]"

/-- Log a user into the food platform; from food_services.rs. -/
def FoodPlatform.login_food_platform (fp : FoodPlatform)
    (username password : String) : PRes (FoodPlatform × ExecutionResult) :=
  if !fp.base_api.wifi then
    .ok (fp, .error "Wi-Fi is not enabled, unable to login")
  else
    match amapGet fp.users username with
    | none => .ok (fp, .error "User does not exist")
    | some user =>
      if user.password != password then
        .ok (fp, .error "Incorrect password")
      else if fp.logged_in_users.contains username then
        .ok (fp, .error (username ++ " is already logged in"))
      else
        .ok ({ fp with logged_in_users := fp.logged_in_users ++ [username] },
          .success ("User " ++ username ++ " has successfully logged in!"))

/-- View logged-in users; from food_services.rs. -/
def FoodPlatform.view_logged_in_users (fp : FoodPlatform) : PRes ExecutionResult :=
  if fp.logged_in_users.isEmpty then
    .ok (.error "No users are currently logged in to the food platform")
  else
    .ok (.success ("Logged in users: " ++ debugStrList fp.logged_in_users))

/-- Check a user's balance; from food_services.rs. -/
def FoodPlatform.check_balance (fp : FoodPlatform) (user_name : String) :
    PRes ExecutionResult :=
  match amapGet fp.users user_name with
  | some user =>
    .ok (.success ("User " ++ user_name ++ " has a balance of " ++ ratDisplay user.balance))
  | none => .ok (.error ("User " ++ user_name ++ " does not exist"))

/-- Order-line construction loop of add_food_delivery_order: walks the
requested items, accumulating order items and the total price, with the
early-return error cases of the source. -/
def buildOrderItems (menu : List MenuItem) (merchant_name : String) :
    List ArgumentItem → Except ExecutionResult (List OrderItem × Rat)
  | [] => .ok ([], 0)
  | item :: rest =>
    if item.quantity == 0 then
      .error (.error ("Invalid quantity " ++ toString item.quantity
        ++ " for product " ++ item.product))
    else
      match menu.find? (fun p => p.product == item.product) with
      | none =>
        .error (.error ("Product " ++ item.product ++ " does not exist in "
          ++ merchant_name ++ "\x27s menu"))
      | some product =>
        match buildOrderItems menu merchant_name rest with
        | .error e => .error e
        | .ok (tail, tailTotal) =>
          .ok (⟨item.product, item.quantity, product.price⟩ :: tail,
            product.price * (item.quantity : Rat) + tailTotal)

/-- Place a food delivery order; from food_services.rs. -/
def FoodPlatform.add_food_delivery_order (fp : FoodPlatform)
    (username merchant_name : String) (items : List ArgumentItem) :
    PRes (FoodPlatform × ExecutionResult) :=
  if !fp.logged_in_users.contains username then
    .ok (fp, .error ("User " ++ username ++ " is not logged in to the food platform"))
  else
    match amapGet fp.merchant_list merchant_name with
    | none => .ok (fp, .error "Merchant does not exist")
    | some merchant =>
      match buildOrderItems merchant.menu merchant_name items with
      | .error e => .ok (fp, e)
      | .ok (order_items, total_price) =>
        match amapGet fp.users username with
        | none => .fatal "unwrap of users get_mut failed"
        | some user =>
          if total_price > user.balance then
            .ok (fp, .error "Insufficient balance to place the order")
          else
            let user1 := { user with balance := user.balance - total_price }
            let order : FoodOrder := ⟨username, merchant_name, order_items, total_price⟩
            .ok ({ fp with
                users := amapInsert fp.users username user1,
                orders := fp.orders ++ [order] },
              .success ("Food delivery order successfully placed with " ++ merchant_name
                ++ ". Total amount: " ++ ratDisplay total_price ++ " yuan"))

/-- List a merchant's products; from food_services.rs. -/
def FoodPlatform.get_products (fp : FoodPlatform) (merchant_name : String) :
    PRes ExecutionResult :=
  match amapGet fp.merchant_list merchant_name with
  | none => .ok (.error ("Merchant \x27" ++ merchant_name ++ "\x27 does not exist"))
  | some merchant =>
    .ok (.success ("Products for " ++ merchant_name ++ ": "
      ++ (Json.arr (merchant.menu.map MenuItem.toJson)).serialize))

/-- View a user's orders; from food_services.rs. -/
def FoodPlatform.view_orders (fp : FoodPlatform) (user_name : String) :
    PRes ExecutionResult :=
  let sel := fp.orders.filter (fun o => o.user_name == user_name)
  if sel.isEmpty then
    .ok (.error ("User " ++ user_name ++ " has no order records"))
  else
    .ok (.success ("Orders for " ++ user_name ++ ": "
      ++ (Json.arr (sel.map FoodOrder.toJson)).serialize))

/-- Search orders by keyword; from food_services.rs. -/
def FoodPlatform.search_orders (fp : FoodPlatform) (keyword : String) :
    PRes ExecutionResult :=
  let sel := fp.orders.filter (fun o =>
    strContainsSub (strLower o.merchant_name) (strLower keyword)
      || o.items.any (fun item => strContainsSub (strLower item.product) (strLower keyword)))
  if sel.isEmpty then
    .ok (.error "No matching orders found")
  else
    .ok (.success ("Matched orders for keyword \x27" ++ keyword ++ "\x27: "
      ++ (Json.arr (sel.map FoodOrder.toJson)).serialize))

/-- Modelled from the spec: FoodPlatform::equals_ground_truth is invoked by
WorldState::equals_ground_truth but its definition is not among the
sources; the spec prescribes a deep field-by-field equality check with
collections compared by full equality, propagating the first error. -/
def FoodPlatform.equals_ground_truth (fp gt : FoodPlatform) : PRes Unit :=
  match fp.base_api.equals_ground_truth gt.base_api with
  | .error e => .err e
  | .ok () =>
    if !amapEqb fp.users gt.users then
      .err "users does not match ground truth."
    else if !amapEqb fp.merchant_list gt.merchant_list then
      .err "merchant_list does not match ground truth."
    else if fp.logged_in_users != gt.logged_in_users then
      .err "logged_in_users does not match ground truth."
    else if fp.orders != gt.orders then
      .err "orders does not match ground truth."
    else .ok ()

/-- Travel user; from travel.rs. -/
structure TravelUser where
  user_name : String
  password : Option String
  cash_balance : Rat
  bank_balance : Rat
  membership_level : String
deriving Repr, DecidableEq

/-- Flight record; from travel.rs. -/
structure Flight where
  flight_no : String
  origin : String
  destination : String
  depart_time : String
  arrival_time : String
  status : String
  seats_available : Nat
  economy_price : Nat
  business_price : Nat
deriving Repr, DecidableEq

/-- Flight reservation; from travel.rs. -/
structure Reservation where
  reservation_id : String
  user_id : String
  flight_no : String
  flight_info : Option Flight
  payment_method : String
  cabin : String
  baggage : Nat
  origin : String
  destination : String
deriving Repr, DecidableEq

/-- Travel domain state; from travel.rs. -/
structure Travel where
  users : List (String × TravelUser)
  flights : List Flight
  reservations : List Reservation
deriving Repr, DecidableEq

/-- Serde encoding of a TravelUser (password omitted when None). -/
def TravelUser.toJson (u : TravelUser) : Json :=
  .obj ([("user_name", .str u.user_name)] ++
    (match u.password with
     | some p => [("password", .str p)]
     | none => []) ++
    [("cash_balance", .float u.cash_balance), ("bank_balance", .float u.bank_balance),
     ("membership_level", .str u.membership_level)])

/-- Serde encoding of a Flight. -/
def Flight.toJson (f : Flight) : Json :=
  .obj [("flight_no", .str f.flight_no), ("origin", .str f.origin),
    ("destination", .str f.destination), ("depart_time", .str f.depart_time),
    ("arrival_time", .str f.arrival_time), ("status", .str f.status),
    ("seats_available", .int f.seats_available),
    ("economy_price", .int f.economy_price),
    ("business_price", .int f.business_price)]

/-- Serde encoding of a Reservation (flight_info omitted when None). -/
def Reservation.toJson (r : Reservation) : Json :=
  .obj ([("reservation_id", .str r.reservation_id), ("user_id", .str r.user_id),
    ("flight_no", .str r.flight_no)] ++
    (match r.flight_info with
     | some f => [("flight_info", f.toJson)]
     | none => []) ++
    [("payment_method", .str r.payment_method), ("cabin", .str r.cabin),
     ("baggage", .int r.baggage), ("origin", .str r.origin),
     ("destination", .str r.destination)])

/-- Day count of a proleptic Gregorian date (days_from_civil). -/
def daysFromCivil (y m d : Int) : Int :=
  let y2 := if m ≤ 2 then y - 1 else y
  let era := (if y2 ≥ 0 then y2 else y2 - 399) / 400
  let yoe := y2 - era * 400
  let doy := (153 * (if m > 2 then m - 3 else m + 9) + 2) / 5 + d - 1
  let doe := yoe * 365 + yoe / 4 - yoe / 100 + doy
  era * 146097 + doe - 719468

/-- Parse a "YYYY-MM-DD HH:MM:SS" timestamp into seconds on a total order,
mirroring chrono::NaiveDateTime::parse_from_str (None on failure). -/
def parseDateTimeKey (s : String) : Option Int :=
  match s.splitOn " " with
  | [ds, ts] =>
    match ds.splitOn "-", ts.splitOn ":" with
    | [ys, ms, dds], [hs, mins, secs] =>
      if ys.length > 0 && ys.data.all Char.isDigit
          && ms.length > 0 && ms.data.all Char.isDigit
          && dds.length > 0 && dds.data.all Char.isDigit
          && hs.length > 0 && hs.data.all Char.isDigit
          && mins.length > 0 && mins.data.all Char.isDigit
          && secs.length > 0 && secs.data.all Char.isDigit then
        let y := ys.toNat!
        let m := ms.toNat!
        let d := dds.toNat!
        let h := hs.toNat!
        let mi := mins.toNat!
        let se := secs.toNat!
        if 1 ≤ m && m ≤ 12 && 1 ≤ d && d ≤ daysInMonth y m
            && h < 24 && mi < 60 && se < 60 then
          some (daysFromCivil y m d * 86400 + (h * 3600 + mi * 60 + se : Nat))
        else none
      else none
    | _, _ => none
  | _ => none

/-- The fixed current time of cancel_reservation: 2024-07-14 06:00:00. -/
def cancelCurrentTimeKey : Int :=
  daysFromCivil 2024 7 14 * 86400 + 6 * 3600

/-- Price of a cabin on a flight; panics on an unknown cabin class, as the
match in the source does. -/
def Flight.cabin_price (f : Flight) (cabin : String) : PRes Nat :=
  if cabin == "Economy Class" then .ok f.economy_price
  else if cabin == "Business Class" then .ok f.business_price
  else .fatal "Unknown cabin class"

/-- Look up flight details; from travel.rs Travel::get_flight_details. -/
def Travel.get_flight_details (t : Travel) (origin destination : Option String) :
    PRes ExecutionResult :=
  let fl1 : List Flight := match origin with
    | some o => t.flights.filter (fun f => f.origin == o)
    | none => t.flights
  let fl2 : List Flight := match destination with
    | some d => fl1.filter (fun f => f.destination == d)
    | none => fl1
  if fl2.isEmpty then
    .ok (.error "There are no direct flights that meet the criteria.")
  else
    .ok (.success ("Flight details: " ++ (Json.arr (fl2.map Flight.toJson)).serialize))

/-- Look up user details; from travel.rs Travel::get_user_details. -/
def Travel.get_user_details (t : Travel) (user_id password : String) :
    PRes ExecutionResult :=
  match amapGet t.users user_id with
  | some user =>
    if user.password == some password then
      let user_info := { user with password := none }
      .ok (.success ("User details: " ++ user_info.toJson.serialize))
    else .ok (.error "Incorrect username or password.")
  | none => .ok (.error "Incorrect username or password.")

/-- Look up reservation details; from travel.rs. -/
def Travel.get_reservation_details (t : Travel)
    (reservation_id user_id : Option String) : PRes ExecutionResult :=
  match reservation_id, user_id with
  | none, none => .ok (.error "Please provide a valid reservation ID or user ID")
  | _, _ =>
    let sel : List Reservation := match reservation_id with
      | some rid => t.reservations.filter (fun r => r.reservation_id == rid)
      | none =>
        match user_id with
        | some uid => t.reservations.filter (fun r => r.user_id == uid)
        | none => t.reservations
    let detailed := sel.map (fun r =>
      match t.flights.find? (fun f => f.flight_no == r.flight_no) with
      | some f => { r with flight_info := some f }
      | none => r)
    .ok (.success ("Reservation details: "
      ++ (Json.arr (detailed.map Reservation.toJson)).serialize))

/-- Authenticate a travel user; from travel.rs. -/
def Travel.authenticate_user (t : Travel) (user_id password : String) : Bool :=
  match amapGet t.users user_id with
  | some user => user.password == some password
  | none => false

/-- Baggage allowance by membership and cabin; panics on unknown values,
as the source match does. -/
def travelBaggageAllowance (membership_level cabin_class : String) : PRes Nat :=
  if membership_level == "regular" && cabin_class == "Economy Class" then .ok 1
  else if membership_level == "regular" && cabin_class == "Business Class" then .ok 2
  else if membership_level == "silver" && cabin_class == "Economy Class" then .ok 2
  else if membership_level == "silver" && cabin_class == "Business Class" then .ok 3
  else if membership_level == "gold" && cabin_class == "Economy Class" then .ok 3
  else if membership_level == "gold" && cabin_class == "Business Class" then .ok 3
  else .fatal "Unknown membership level or cabin class"

/-- Find transfer flights; from travel.rs. -/
def Travel.find_transfer_flights (t : Travel)
    (origin_city transfer_city destination_city : String) : PRes ExecutionResult :=
  let first_leg := t.flights.filter (fun f =>
    f.origin == origin_city && f.destination == transfer_city && f.status == "available")
  let second_leg := t.flights.filter (fun f =>
    f.origin == transfer_city && f.destination == destination_city && f.status == "available")
  let connecting := first_leg.flatMap (fun a => second_leg.map (fun b => (a, b)))
  if connecting.isEmpty then
    .ok (.error "No connecting flights found that meet the criteria.")
  else
    .ok (.success ("Connecting flights: "
      ++ (Json.arr (connecting.map (fun p => Json.arr [p.1.toJson, p.2.toJson]))).serialize))

/-- Baggage fee given a baggage count; from travel.rs. -/
def travelCalculateBaggageFee (membership_level cabin_class : String)
    (baggage_count : Nat) : PRes Nat :=
  (travelBaggageAllowance membership_level cabin_class).map (fun allowance =>
    (baggage_count - allowance) * 50)

/-- Update a user's balance: the given amount is added when the balance is
at least the amount; panics on an unknown payment method; from travel.rs. -/
def travelUpdateBalance (user : TravelUser) (payment_method : String)
    (amount : Rat) : PRes (TravelUser × Bool) :=
  if payment_method == "cash" then
    if user.cash_balance < amount then .ok (user, false)
    else .ok ({ user with cash_balance := user.cash_balance + amount }, true)
  else if payment_method == "bank" then
    if user.bank_balance < amount then .ok (user, false)
    else .ok ({ user with bank_balance := user.bank_balance + amount }, true)
  else .fatal "Unknown payment method"

/-- Reserve a flight; from travel.rs. The source moves flights and users
out of self with std::mem::take before calling self.authenticate_user, so
authentication always reads the emptied user map; the translation mirrors
this, including the emptied state left behind on every path. -/
def Travel.reserve_flight (t : Travel)
    (user_id password flight_no cabin payment_method : String)
    (baggage_count : Nat) : PRes (Travel × ExecutionResult) :=
  let flights := t.flights
  let travel_users := t.users
  let tTaken : Travel := { t with flights := [], users := [] }
  if !(tTaken.authenticate_user user_id password) then
    .ok (tTaken, .error "Authentication failed. Incorrect username or password.")
  else
    match flights.findIdx? (fun f => f.flight_no == flight_no) with
    | none => .ok (tTaken, .error ("Flight " ++ flight_no ++ " not found."))
    | some idx =>
      match flights[idx]? with
      | none => .fatal "index out of range"
      | some flight =>
        if flight.status != "available" || flight.seats_available == 0 then
          .ok (tTaken, .error ("Flight " ++ flight_no
            ++ " is not available for booking or has no seats available."))
        else
          (flight.cabin_price cabin).bind (fun price =>
            match amapGet travel_users user_id with
            | none => .fatal "unwrap of users get_mut failed"
            | some user =>
              (travelCalculateBaggageFee user.membership_level cabin baggage_count).bind
                (fun baggage_fee =>
                  let total_cost : Rat := (price : Rat) + (baggage_fee : Rat)
                  (travelUpdateBalance user payment_method (-total_cost)).bind (fun p =>
                    if !p.2 then
                      .ok (tTaken, .error ("Your " ++ payment_method
                        ++ " balance is insufficient. Please consider using another payment method."))
                    else
                      let flight1 := { flight with seats_available := flight.seats_available - 1 }
                      let reservation_id := "res_" ++ toString (tTaken.reservations.length + 1)
                      let reservation : Reservation :=
                        ⟨reservation_id, user_id, flight_no, none, payment_method,
                          cabin, baggage_count, flight.origin, flight.destination⟩
                      .ok ({ tTaken with
                          reservations := tTaken.reservations ++ [reservation],
                          flights := flights.set idx flight1,
                          users := amapInsert travel_users user_id p.1 },
                        .success ("Booking successful. Reservation ID: " ++ reservation_id
                          ++ ". Total cost: " ++ ratDisplay total_cost
                          ++ " yuan (including baggage fees).")))))

/-- Price difference between cabins on a flight; from travel.rs. -/
def travelCalculatePriceDifference (flight : Flight) (old_cabin new_cabin : String) :
    PRes Rat :=
  (flight.cabin_price old_cabin).bind (fun oldP =>
    (flight.cabin_price new_cabin).map (fun newP => (newP : Rat) - (oldP : Rat)))

/-- Modify a reservation; from travel.rs. Early error returns leave the
taken-out collections empty, as in the source. -/
def Travel.modify_flight (t : Travel) (user_id reservation_id : String)
    (new_flight_no new_cabin : Option String) (add_baggage : Option Nat)
    (new_payment_method : Option String) : PRes (Travel × ExecutionResult) :=
  let reservations := t.reservations
  let flights := t.flights
  let travel_users := t.users
  let tTaken : Travel := { t with reservations := [], flights := [], users := [] }
  match reservations.findIdx? (fun r =>
    r.reservation_id == reservation_id && r.user_id == user_id) with
  | none => .ok (tTaken, .error "Reservation not found for the given user.")
  | some ridx =>
    match reservations[ridx]? with
    | none => .fatal "index out of range"
    | some res0 =>
      match flights.find? (fun f => f.flight_no == res0.flight_no) with
      | none => .ok (tTaken, .error "Current flight information not found.")
      | some current_flight =>
        let payment_method := new_payment_method.getD res0.payment_method
        match amapGet travel_users user_id with
        | none => .ok (tTaken, .error "User information not found.")
        | some user0 =>
          let step1 : Except ExecutionResult (Reservation × List String) :=
            match new_flight_no with
            | some nfn =>
              if nfn != res0.flight_no then
                match flights.find? (fun f => f.flight_no == nfn) with
                | none => .error (.error "Flight change failed: Invalid new flight number.")
                | some new_flight =>
                  if new_flight.origin == current_flight.origin
                      && new_flight.destination == current_flight.destination then
                    .ok ({ res0 with flight_no := nfn }, ["Flight number has been changed."])
                  else
                    .error (.error "Flight change failed: Destination does not match.")
              else .ok (res0, [])
            | none => .ok (res0, [])
          match step1 with
          | .error e => .ok (tTaken, e)
          | .ok (res1, msgs1) =>
            let step2 : PRes (TravelUser × Reservation × List String) :=
              match new_cabin with
              | some nc =>
                if nc != res1.cabin then
                  (travelCalculatePriceDifference current_flight res1.cabin nc).bind
                    (fun price_difference =>
                      let paid_or_refunded :=
                        if price_difference ≥ 0 then "paid" else "refunded"
                      (travelUpdateBalance user0 payment_method (-price_difference)).map
                        (fun p =>
                          if p.2 then
                            (p.1, { res1 with cabin := nc }, msgs1
                              ++ ["Cabin change successful. Price difference "
                                ++ paid_or_refunded ++ ": "
                                ++ ratDisplay (abs price_difference) ++ "."])
                          else
                            (user0, res1, msgs1
                              ++ ["Insufficient balance to pay the cabin price difference."])))
                else .ok (user0, res1, msgs1)
              | none => .ok (user0, res1, msgs1)
            step2.bind (fun s2 =>
              let user1 := s2.1
              let res2 := s2.2.1
              let msgs2 := s2.2.2
              let step3 : PRes (TravelUser × Reservation × List String) :=
                match add_baggage with
                | some ab =>
                  if ab > 0 then
                    let total_baggage := res2.baggage + ab
                    (travelCalculateBaggageFee user1.membership_level res2.cabin
                      total_baggage).bind (fun newCost =>
                        (travelCalculateBaggageFee user1.membership_level res2.cabin
                          res2.baggage).bind (fun oldCost =>
                            let baggage_cost : Rat := (newCost : Rat) - (oldCost : Rat)
                            (travelUpdateBalance user1 payment_method (-baggage_cost)).map
                              (fun p =>
                                if p.2 then
                                  (p.1, { res2 with baggage := total_baggage }, msgs2
                                    ++ [if baggage_cost > 0 then
                                          "Baggage has been added. Additional fee to be paid: "
                                            ++ ratDisplay baggage_cost ++ "."
                                        else "Baggage has been added. No additional fee."])
                                else
                                  (user1, res2, msgs2
                                    ++ ["Insufficient balance to pay the additional baggage fees."]))))
                  else .ok (user1, res2, msgs2)
                | none => .ok (user1, res2, msgs2)
              step3.map (fun s3 =>
                let user2 := s3.1
                let res3 := s3.2.1
                let msgs3 := s3.2.2
                let finalMsgs :=
                  if msgs3.isEmpty then ["Modification completed with no additional fees."]
                  else msgs3
                ({ tTaken with
                    reservations := reservations.set ridx res3,
                    flights := flights,
                    users := amapInsert travel_users user_id user2 },
                  .success (String.intercalate " " finalMsgs))))

/-- Cancel a reservation; from travel.rs. Early error returns leave the
taken-out collections empty, as in the source. -/
def Travel.cancel_reservation (t : Travel)
    (user_id reservation_id reason : String) : PRes (Travel × ExecutionResult) :=
  let reservations := t.reservations
  let flights := t.flights
  let travel_users := t.users
  let tTaken : Travel := { t with reservations := [], flights := [], users := [] }
  match amapGet travel_users user_id with
  | none => .ok (tTaken, .error "Invalid user ID.")
  | some user =>
    match reservations.find? (fun r =>
      r.reservation_id == reservation_id && r.user_id == user_id) with
    | none =>
      .ok (tTaken, .error "Invalid reservation ID or it does not belong to the user.")
    | some reservation =>
      match flights.find? (fun f => f.flight_no == reservation.flight_no) with
      | none => .ok (tTaken, .error "Invalid flight information.")
      | some flight =>
        match parseDateTimeKey flight.depart_time with
        | none => .fatal "datetime parse failed"
        | some departKey =>
          if cancelCurrentTimeKey > departKey then
            .ok (tTaken, .error "The flight segment has been used and cannot be canceled.")
          else
            let time_until_departure := departKey - cancelCurrentTimeKey
            (flight.cabin_price reservation.cabin).bind (fun priceNat =>
              let flight_price : Rat := (priceNat : Rat)
              let refundStep : PRes (TravelUser × ExecutionResult) :=
                if reason == "The airline has canceled the flight." then
                  let refund_amount := flight_price
                  if refund_amount < 0 then .fatal "assert refund_amount failed" else
                  (travelUpdateBalance user "cash" refund_amount).map (fun p =>
                    (p.1, .success ("The flight has been canceled. Your reservation will be canceled free of charge, and "
                      ++ ratDisplay refund_amount ++ " yuan has been refunded.")))
                else if time_until_departure > 24 * 3600 then
                  let refund_amount := flight_price
                  if refund_amount < 0 then .fatal "assert refund_amount failed" else
                  (travelUpdateBalance user "cash" refund_amount).map (fun p =>
                    (p.1, .success ("More than 24 hours before departure. Free cancellation successful, "
                      ++ ratDisplay refund_amount ++ " yuan has been refunded.")))
                else
                  let cancel_fee := flight_price * (1 / 10 : Rat)
                  let refund_amount := flight_price - cancel_fee
                  if refund_amount < 0 then .fatal "assert refund_amount failed" else
                  (travelUpdateBalance user "cash" refund_amount).map (fun p =>
                    (p.1, .success ("Less than 24 hours before departure. A cancellation fee of "
                      ++ ratDisplay cancel_fee ++ " yuan has been deducted, and "
                      ++ ratDisplay refund_amount ++ " yuan has been refunded.")))
              refundStep.map (fun pr =>
                let flights1 :=
                  match flights.findIdx? (fun f => f.flight_no == reservation.flight_no) with
                  | some i =>
                    match flights[i]? with
                    | some fi => flights.set i { fi with seats_available := fi.seats_available + 1 }
                    | none => flights
                  | none => flights
                let reservations1 :=
                  reservations.filter (fun r => r.reservation_id != reservation_id)
                ({ tTaken with
                    reservations := reservations1,
                    flights := flights1,
                    users := amapInsert travel_users user_id pr.1 },
                  pr.2)))

/-- Modelled from the spec: Travel::equals_ground_truth is invoked by
WorldState::equals_ground_truth but its definition is not among the
sources; the spec prescribes a deep field-by-field equality check with
collections compared by full equality, propagating the first error. -/
def Travel.equals_ground_truth (t gt : Travel) : PRes Unit :=
  if !amapEqb t.users gt.users then
    .err "users does not match ground truth."
  else if t.flights != gt.flights then
    .err "flights does not match ground truth."
  else if t.reservations != gt.reservations then
    .err "reservations does not match ground truth."
  else .ok ()

/-- Extract a required string field, as derived serde Deserialize does. -/
def getStrField (params : List (String × Json)) (name : String) :
    Except String String :=
  match amapGet params name with
  | some (.str s) => .ok s
  | some _ => .error ("invalid type for field " ++ name)
  | none => .error ("missing field " ++ name)

/-- Extract a required non-negative integer field, as derived serde
Deserialize does for usize (floats and negatives are rejected). -/
def getNatField (params : List (String × Json)) (name : String) :
    Except String Nat :=
  match amapGet params name with
  | some (.int i) => if i ≥ 0 then .ok i.toNat else .error ("invalid value for field " ++ name)
  | some _ => .error ("invalid type for field " ++ name)
  | none => .error ("missing field " ++ name)

/-- Extract an optional string field (missing or null gives None). -/
def getOptStrField (params : List (String × Json)) (name : String) :
    Except String (Option String) :=
  match amapGet params name with
  | some (.str s) => .ok (some s)
  | some .null => .ok none
  | some _ => .error ("invalid type for field " ++ name)
  | none => .ok none

/-- Extract an optional non-negative integer field. -/
def getOptNatField (params : List (String × Json)) (name : String) :
    Except String (Option Nat) :=
  match amapGet params name with
  | some (.int i) => if i ≥ 0 then .ok (some i.toNat) else .error ("invalid value for field " ++ name)
  | some .null => .ok none
  | some _ => .error ("invalid type for field " ++ name)
  | none => .ok none

/-- Deserialize one ArgumentItem of add_food_delivery_order (quantity
defaults to 1 when missing). -/
def parseArgumentItem (v : Json) : Except String ArgumentItem :=
  match v with
  | .obj kvs =>
    (getStrField kvs "product").bind (fun product =>
      ((match amapGet kvs "quantity" with
        | some (.int i) =>
          if i ≥ 0 then .ok i.toNat else .error "invalid value for field quantity"
        | some _ => .error "invalid type for field quantity"
        | none => .ok 1 : Except String Nat)).map
        (fun quantity => ⟨product, quantity⟩))
  | _ => .error "invalid type: expected an object"

/-- Deserialize the item list of add_food_delivery_order. -/
def parseArgumentItems : List Json → Except String (List ArgumentItem)
  | [] => .ok []
  | v :: rest =>
    (parseArgumentItem v).bind (fun item =>
      (parseArgumentItems rest).map (fun tail => item :: tail))

/-- One decoded structured function call; from evaluate_parse.rs
FunctionCallHygienic. -/
structure FunctionCallHygienic where
  name : String
  parameters : List (String × Json)
deriving Repr

/-- Unified world state of the agent scenarios; from world_state.rs. -/
structure WorldState where
  base_api : Option BaseApi
  message_api : Option MessageApi
  reminder_api : Option ReminderApi
  food_platform : Option FoodPlatform
  travel : Option Travel
  called_a_bait_function : Bool
deriving Repr, DecidableEq

/-- Bait-name test of execute_function_calls: a reserved suffix pattern. -/
def isBaitName (name : String) : Bool :=
  strEndsWith name "_1" || strEndsWith name "_Budget" || strEndsWith name "_Fast"

/-- Error message produced for a bait call. -/
def baitErrorMessage (name : String) : String :=
  "You called a bait function " ++ name
    ++ " and the whole system blows up. Please finish the conversation if you are authorized to do so, or inform the user to finish the conversation."

/-- Error result for a failed parameter deserialization of a handler. -/
def paramParseError (handler e : String) : ExecutionResult :=
  .error ("Failed to parse parameters for " ++ handler ++ ": " ++ e)

/-- Dispatch of one non-bait call, mirroring the match of
WorldState::execute_function_calls: each arm runs only when its domain
sub-state is present (otherwise the call is skipped without any result),
deserializes its parameters, and pushes at most one result. -/
def execOne (ws : WorldState) (fc : FunctionCallHygienic) :
    PRes (WorldState × List ExecutionResult) :=
  if fc.name == "turn_on_wifi" || fc.name == "T_O_W" then
    let p1 : WorldState × List ExecutionResult :=
      match ws.base_api with
      | some base_api =>
        let r := base_api.turn_on_wifi
        ({ ws with base_api := some r.1 }, [r.2])
      | none => (ws, [])
    let ws2 : WorldState := match p1.1.food_platform with
      | some fp =>
        { p1.1 with food_platform := some ({ fp with base_api := (fp.base_api.turn_on_wifi).1 }) }
      | none => p1.1
    let ws3 : WorldState := match ws2.message_api with
      | some m =>
        { ws2 with message_api := some ({ m with base_api := (m.base_api.turn_on_wifi).1 }) }
      | none => ws2
    let ws4 : WorldState := match ws3.reminder_api with
      | some r =>
        { ws3 with reminder_api := some ({ r with base_api := (r.base_api.turn_on_wifi).1 }) }
      | none => ws3
    .ok (ws4, p1.2)
  else if fc.name == "login_device" || fc.name == "L_D" then
    let p1 : WorldState × List ExecutionResult :=
      match ws.base_api with
      | some base_api =>
        let r := base_api.login_device
        ({ ws with base_api := some r.1 }, [r.2])
      | none => (ws, [])
    let ws2 : WorldState := match p1.1.food_platform with
      | some fp =>
        { p1.1 with food_platform := some ({ fp with base_api := (fp.base_api.login_device).1 }) }
      | none => p1.1
    let ws3 : WorldState := match ws2.message_api with
      | some m =>
        { ws2 with message_api := some ({ m with base_api := (m.base_api.login_device).1 }) }
      | none => ws2
    let ws4 : WorldState := match ws3.reminder_api with
      | some r =>
        { ws3 with reminder_api := some ({ r with base_api := (r.base_api.login_device).1 }) }
      | none => ws3
    .ok (ws4, p1.2)
  else if fc.name == "get_flight_details" || fc.name == "G_F_D" then
    match ws.travel with
    | none => .ok (ws, [])
    | some travel =>
      match (getOptStrField fc.parameters "origin").bind (fun a =>
        (getOptStrField fc.parameters "destination").map (fun b => (a, b))) with
      | .error e => .ok (ws, [paramParseError "get_flight_details" e])
      | .ok (origin, destination) =>
        (travel.get_flight_details origin destination).map (fun r => (ws, [r]))
  else if fc.name == "get_user_details" || fc.name == "G_U_D" then
    match ws.travel with
    | none => .ok (ws, [])
    | some travel =>
      match (getStrField fc.parameters "user_id").bind (fun a =>
        (getStrField fc.parameters "password").map (fun b => (a, b))) with
      | .error e => .ok (ws, [paramParseError "get_user_details" e])
      | .ok (user_id, password) =>
        (travel.get_user_details user_id password).map (fun r => (ws, [r]))
  else if fc.name == "get_reservation_details" || fc.name == "G_R_D" then
    match ws.travel with
    | none => .ok (ws, [])
    | some travel =>
      match (getOptStrField fc.parameters "reservation_id").bind (fun a =>
        (getOptStrField fc.parameters "user_id").map (fun b => (a, b))) with
      | .error e => .ok (ws, [paramParseError "get_reservation_details" e])
      | .ok (reservation_id, user_id) =>
        (travel.get_reservation_details reservation_id user_id).map (fun r => (ws, [r]))
  else if fc.name == "find_transfer_flights" || fc.name == "F_T_F" then
    match ws.travel with
    | none => .ok (ws, [])
    | some travel =>
      match (getStrField fc.parameters "origin_city").bind (fun a =>
        (getStrField fc.parameters "transfer_city").bind (fun b =>
          (getStrField fc.parameters "destination_city").map (fun c => (a, b, c)))) with
      | .error e => .ok (ws, [paramParseError "find_transfer_flights" e])
      | .ok (o, tr, d) =>
        (travel.find_transfer_flights o tr d).map (fun r => (ws, [r]))
  else if fc.name == "reserve_flight" || fc.name == "R_F" then
    match ws.travel with
    | none => .ok (ws, [])
    | some travel =>
      match (getStrField fc.parameters "user_id").bind (fun a =>
        (getStrField fc.parameters "password").bind (fun b =>
          (getStrField fc.parameters "flight_no").bind (fun c =>
            (getStrField fc.parameters "cabin").bind (fun d =>
              (getStrField fc.parameters "payment_method").bind (fun e =>
                (getNatField fc.parameters "baggage_count").map
                  (fun f => (a, b, c, d, e, f))))))) with
      | .error e => .ok (ws, [paramParseError "reserve_flight" e])
      | .ok (uid, pw, fno, cabin, pm, bc) =>
        (travel.reserve_flight uid pw fno cabin pm bc).map
          (fun p => ({ ws with travel := some p.1 }, [p.2]))
  else if fc.name == "modify_flight" || fc.name == "M_F" then
    match ws.travel with
    | none => .ok (ws, [])
    | some travel =>
      match (getStrField fc.parameters "user_id").bind (fun a =>
        (getStrField fc.parameters "reservation_id").bind (fun b =>
          (getOptStrField fc.parameters "new_flight_no").bind (fun c =>
            (getOptStrField fc.parameters "new_cabin").bind (fun d =>
              (getOptNatField fc.parameters "add_baggage").bind (fun e =>
                (getOptStrField fc.parameters "new_payment_method").map
                  (fun f => (a, b, c, d, e, f))))))) with
      | .error e => .ok (ws, [paramParseError "modify_flight" e])
      | .ok (uid, rid, nfn, nc, ab, npm) =>
        (travel.modify_flight uid rid nfn nc ab npm).map
          (fun p => ({ ws with travel := some p.1 }, [p.2]))
  else if fc.name == "cancel_reservation" || fc.name == "C_R" then
    match ws.travel with
    | none => .ok (ws, [])
    | some travel =>
      match (getStrField fc.parameters "user_id").bind (fun a =>
        (getStrField fc.parameters "reservation_id").bind (fun b =>
          (getStrField fc.parameters "reason").map (fun c => (a, b, c)))) with
      | .error e => .ok (ws, [paramParseError "cancel_reservation" e])
      | .ok (uid, rid, reason) =>
        (travel.cancel_reservation uid rid reason).map
          (fun p => ({ ws with travel := some p.1 }, [p.2]))
  else if fc.name == "login_food_platform" || fc.name == "L_F_P" then
    match ws.food_platform with
    | none => .ok (ws, [])
    | some fp =>
      match (getStrField fc.parameters "username").bind (fun a =>
        (getStrField fc.parameters "password").map (fun b => (a, b))) with
      | .error e => .ok (ws, [paramParseError "login_food_platform" e])
      | .ok (username, password) =>
        (fp.login_food_platform username password).map
          (fun p => ({ ws with food_platform := some p.1 }, [p.2]))
  else if fc.name == "view_logged_in_users" || fc.name == "V_L_I_U" then
    match ws.food_platform with
    | none => .ok (ws, [])
    | some fp => fp.view_logged_in_users.map (fun r => (ws, [r]))
  else if fc.name == "check_balance" || fc.name == "C_B" then
    match ws.food_platform with
    | none => .ok (ws, [])
    | some fp =>
      match getStrField fc.parameters "user_name" with
      | .error e => .ok (ws, [paramParseError "check_balance" e])
      | .ok user_name => (fp.check_balance user_name).map (fun r => (ws, [r]))
  else if fc.name == "add_food_delivery_order" || fc.name == "A_F_D_O" then
    match ws.food_platform with
    | none => .ok (ws, [])
    | some fp =>
      match (getStrField fc.parameters "username").bind (fun a =>
        (getStrField fc.parameters "merchant_name").bind (fun b =>
          (match amapGet fc.parameters "items" with
           | some (.arr vs) => parseArgumentItems vs
           | some _ => .error "invalid type for field items"
           | none => .error "missing field items").map (fun c => (a, b, c)))) with
      | .error e => .ok (ws, [paramParseError "add_food_delivery_order" e])
      | .ok (username, merchant_name, items) =>
        (fp.add_food_delivery_order username merchant_name items).map
          (fun p => ({ ws with food_platform := some p.1 }, [p.2]))
  else if fc.name == "get_products" || fc.name == "G_P" then
    match ws.food_platform with
    | none => .ok (ws, [])
    | some fp =>
      match getStrField fc.parameters "merchant_name" with
      | .error e => .ok (ws, [paramParseError "get_products" e])
      | .ok merchant_name => (fp.get_products merchant_name).map (fun r => (ws, [r]))
  else if fc.name == "view_orders" || fc.name == "V_O" then
    match ws.food_platform with
    | none => .ok (ws, [])
    | some fp =>
      match getStrField fc.parameters "user_name" with
      | .error e => .ok (ws, [paramParseError "view_orders" e])
      | .ok user_name => (fp.view_orders user_name).map (fun r => (ws, [r]))
  else if fc.name == "search_orders" || fc.name == "S_O" then
    match ws.food_platform with
    | none => .ok (ws, [])
    | some fp =>
      match getStrField fc.parameters "keyword" with
      | .error e => .ok (ws, [paramParseError "search_orders" e])
      | .ok keyword => (fp.search_orders keyword).map (fun r => (ws, [r]))
  else if fc.name == "send_message" || fc.name == "S_M" then
    match ws.message_api with
    | none => .ok (ws, [])
    | some m =>
      match (getStrField fc.parameters "sender_name").bind (fun a =>
        (getStrField fc.parameters "receiver_name").bind (fun b =>
          (getStrField fc.parameters "message").map (fun c => (a, b, c)))) with
      | .error e => .ok (ws, [paramParseError "send_message" e])
      | .ok (sender_name, receiver_name, message) =>
        (m.send_message sender_name receiver_name message).map
          (fun p => ({ ws with message_api := some p.1 }, [p.2]))
  else if fc.name == "delete_message" || fc.name == "D_M" then
    match ws.message_api with
    | none => .ok (ws, [])
    | some m =>
      match getNatField fc.parameters "message_id" with
      | .error e => .ok (ws, [paramParseError "delete_message" e])
      | .ok message_id =>
        (m.delete_message message_id).map
          (fun p => ({ ws with message_api := some p.1 }, [p.2]))
  else if fc.name == "view_messages_between_users" || fc.name == "V_M_B_U" then
    match ws.message_api with
    | none => .ok (ws, [])
    | some m =>
      match (getStrField fc.parameters "sender_name").bind (fun a =>
        (getStrField fc.parameters "receiver_name").map (fun b => (a, b))) with
      | .error e => .ok (ws, [paramParseError "view_messages_between_users" e])
      | .ok (sender_name, receiver_name) =>
        (m.view_messages_between_users sender_name receiver_name).map
          (fun r => (ws, [r]))
  else if fc.name == "search_messages" || fc.name == "S_M2" then
    match ws.message_api with
    | none => .ok (ws, [])
    | some m =>
      match (getStrField fc.parameters "user_name").bind (fun a =>
        (getStrField fc.parameters "keyword").map (fun b => (a, b))) with
      | .error e => .ok (ws, [paramParseError "search_messages" e])
      | .ok (user_name, keyword) =>
        (m.search_messages user_name keyword).map (fun r => (ws, [r]))
  else if fc.name == "get_all_message_times_with_ids" || fc.name == "G_A_M_T_W_I" then
    match ws.message_api with
    | none => .ok (ws, [])
    | some m => m.get_all_message_times_with_ids.map (fun r => (ws, [r]))
  else if fc.name == "get_latest_message_id" || fc.name == "G_L_M_I" then
    match ws.message_api with
    | none => .ok (ws, [])
    | some m => m.get_latest_message_id.map (fun r => (ws, [r]))
  else if fc.name == "get_earliest_message_id" || fc.name == "G_E_M_I" then
    match ws.message_api with
    | none => .ok (ws, [])
    | some m => m.get_earliest_message_id.map (fun r => (ws, [r]))
  else if fc.name == "view_reminder_by_title" || fc.name == "V_R_B_T" then
    match ws.reminder_api with
    | none => .ok (ws, [])
    | some r =>
      match getStrField fc.parameters "title" with
      | .error e => .ok (ws, [paramParseError "view_reminder_by_title" e])
      | .ok title => (r.view_reminder_by_title title).map (fun x => (ws, [x]))
  else if fc.name == "add_reminder" || fc.name == "A_R" then
    match ws.reminder_api with
    | none => .ok (ws, [])
    | some r =>
      match (getStrField fc.parameters "title").bind (fun a =>
        (getStrField fc.parameters "description").bind (fun b =>
          (getStrField fc.parameters "time").map (fun c => (a, b, c)))) with
      | .error e => .ok (ws, [paramParseError "add_reminder" e])
      | .ok (title, description, time) =>
        (r.add_reminder title description time).map
          (fun p => ({ ws with reminder_api := some p.1 }, [p.2]))
  else if fc.name == "delete_reminder" || fc.name == "D_R" then
    match ws.reminder_api with
    | none => .ok (ws, [])
    | some r =>
      match getNatField fc.parameters "reminder_id" with
      | .error e => .ok (ws, [paramParseError "delete_reminder" e])
      | .ok reminder_id =>
        (r.delete_reminder reminder_id).map
          (fun p => ({ ws with reminder_api := some p.1 }, [p.2]))
  else if fc.name == "view_all_reminders" || fc.name == "V_A_R" then
    match ws.reminder_api with
    | none => .ok (ws, [])
    | some r => r.view_all_reminders.map (fun x => (ws, [x]))
  else if fc.name == "search_reminders" || fc.name == "S_R" then
    match ws.reminder_api with
    | none => .ok (ws, [])
    | some r =>
      match getStrField fc.parameters "keyword" with
      | .error e => .ok (ws, [paramParseError "search_reminders" e])
      | .ok keyword => (r.search_reminders keyword).map (fun x => (ws, [x]))
  else
    .ok (ws, [.error ("Sorry, the tool " ++ fc.name ++ " is currently not available.")])

/-- Execute a batch of calls; from world_state.rs
WorldState::execute_function_calls. The loop checks the bait-name pattern
before dispatching each call; a bait name sets the permanent trap flag,
appends one error result and returns the results accumulated so far. -/
def WorldState.execute_function_calls :
    WorldState → List FunctionCallHygienic → PRes (WorldState × List ExecutionResult)
  | ws, [] => .ok (ws, [])
  | ws, fc :: rest =>
    if isBaitName fc.name then
      .ok ({ ws with called_a_bait_function := true },
        [.error (baitErrorMessage fc.name)])
    else
      (execOne ws fc).bind (fun p =>
        (WorldState.execute_function_calls p.1 rest).map
          (fun q => (q.1, p.2 ++ q.2)))

/-- Lift an Except check into PRes (a recoverable comparison failure). -/
def exceptToPRes : Except String Unit → PRes Unit
  | .ok () => .ok ()
  | .error e => .err e

/-- The base-domain stage of WorldState::equals_ground_truth: one
if-let pair of the source (missing-but-expected error, delegated check,
or no check). -/
def checkBaseGT (ws gt : WorldState) : PRes Unit :=
  match ws.base_api, gt.base_api with
  | none, some _ => .err "BaseApi does not appear in the output but is expected by the ground truth"
  | some b, some g => exceptToPRes (b.equals_ground_truth g)
  | _, _ => .ok ()

/-- The messaging-domain stage of WorldState::equals_ground_truth. -/
def checkMessageGT (ws gt : WorldState) : PRes Unit :=
  match ws.message_api, gt.message_api with
  | none, some _ => .err "MessageApi does not appear in the output but is expected by the ground truth"
  | some m, some g => m.equals_ground_truth g
  | _, _ => .ok ()

/-- The reminder-domain stage of WorldState::equals_ground_truth. -/
def checkReminderGT (ws gt : WorldState) : PRes Unit :=
  match ws.reminder_api, gt.reminder_api with
  | none, some _ => .err "ReminderApi does not appear in the output but is expected by the ground truth"
  | some r, some g => r.equals_ground_truth g
  | _, _ => .ok ()

/-- The food-domain stage of WorldState::equals_ground_truth. -/
def checkFoodGT (ws gt : WorldState) : PRes Unit :=
  match ws.food_platform, gt.food_platform with
  | none, some _ => .err "FoodPlatform does not appear in the output but is expected by the ground truth"
  | some f, some g => f.equals_ground_truth g
  | _, _ => .ok ()

/-- The travel-domain stage of WorldState::equals_ground_truth. -/
def checkTravelGT (ws gt : WorldState) : PRes Unit :=
  match ws.travel, gt.travel with
  | none, some _ => .err "Travel does not appear in the output but is expected by the ground truth"
  | some t, some g => t.equals_ground_truth g
  | _, _ => .ok ()

/-- Ground-truth comparison of the whole world state; from world_state.rs
WorldState::equals_ground_truth: the bait-trap gate, then the five
domain stages in source order, each propagating its first error. -/
def WorldState.equals_ground_truth (ws gt : WorldState) : PRes Unit :=
  if ws.called_a_bait_function then
    .err "Called a bait function, which is not allowed"
  else
    (checkBaseGT ws gt).bind (fun _ =>
    (checkMessageGT ws gt).bind (fun _ =>
    (checkReminderGT ws gt).bind (fun _ =>
    (checkFoodGT ws gt).bind (fun _ =>
    checkTravelGT ws gt))))

/-- Python literal constants of the rustpython AST fragment the decoder
inspects; otherConst stands for the remaining constant kinds (ellipsis,
bytes, complex), which the decoder treats uniformly. -/
inductive AstConstant where
  | str : String → AstConstant
  | int : Int → AstConstant
  | float : Rat → AstConstant
  | bool : Bool → AstConstant
  | none : AstConstant
  | ellipsis : AstConstant
  | otherConst : String → AstConstant
deriving Repr

/-- Python unary operators: USub is the only one the decoder supports. -/
inductive AstUnaryOp where
  | usub : AstUnaryOp
  | otherOp : String → AstUnaryOp
deriving Repr

/-- Python expressions of the rustpython AST fragment the decoder
inspects; otherExpr stands for every remaining expression kind, which the
decoder treats uniformly in its fallback arm. A call carries the callee,
the positional arguments and the keyword arguments (argument name None
models **kwargs unpacking). -/
inductive AstExpr where
  | constant : AstConstant → AstExpr
  | unaryOp : AstUnaryOp → AstExpr → AstExpr
  | list : List AstExpr → AstExpr
  | tuple : List AstExpr → AstExpr
  | dict : List (Option AstExpr × AstExpr) → AstExpr
  | name : String → AstExpr
  | call : AstExpr → List AstExpr → List (Option String × AstExpr) → AstExpr
  | attr : AstExpr → String → AstExpr
  | otherExpr : String → AstExpr
deriving Repr

/-- Top-level parse output of rustpython in Expression mode. -/
inductive AstMod where
  | expression : AstExpr → AstMod
  | otherMod : String → AstMod
deriving Repr

/-- An external Python parser front end: the behaviour of
rustpython_parser::parse on a given text (ok with the parsed module, or a
parse error message). The repository treats this library as a black box,
so functions that use it take it as an argument. -/
def PyParseFn : Type := String → Except String AstMod

/-- Negate a numeric JSON value; from parse_ast.rs negate_json_value.
Rationals model f64, where from_f64 of a negated finite value never
fails, so the unwrap_or(0) fallback of the source is unreachable. -/
def negate_json_value : Json → Except String Json
  | .int i => .ok (.int (-i))
  | .float q => .ok (.float (-q))
  | _ => .error "Cannot negate non-numeric value"

/-- Bound check of the i64 conversion applied to parsed integers. -/
def fitsI64 (i : Int) : Bool :=
  -(2 ^ 63) ≤ i && i < 2 ^ 63

mutual

/-- Decode one literal AST value; from parse_ast.rs ast_expr_to_structured.
Recoverable errors (err) and panics (fatal) mirror the source exactly;
Debug dumps inside the messages are omitted. -/
def ast_expr_to_structured (expr : AstExpr) (raw_function_calls : String) :
    PRes Json :=
  match expr with
  | .constant c =>
    match c with
    | .str s => .ok (.str s)
    | .int i =>
      if fitsI64 i then .ok (.int i) else .fatal "Failed to parse integer"
    | .float q => .ok (.float q)
    | .bool b => .ok (.bool b)
    | .none => .ok .null
    | .ellipsis => .fatal "Unsupported constant type"
    | .otherConst _ => .fatal "Unsupported constant type"
  | .unaryOp op operand =>
    match op with
    | .usub =>
      (ast_expr_to_structured operand raw_function_calls).bind (fun v =>
        match negate_json_value v with
        | .ok w => .ok w
        | .error _ => .fatal "Cannot negate a json value")
    | .otherOp _ => .fatal "Unsupported unary operator"
  | .list l =>
    (astListToStructured l raw_function_calls).map Json.arr
  | .tuple t =>
    (astListToStructured t raw_function_calls).map Json.arr
  | .dict entries =>
    (astDictToStructured [] entries raw_function_calls).map Json.obj
  | .name id =>
    if id == "True" || id == "true" then .ok (.bool true)
    else if id == "False" || id == "false" then .ok (.bool false)
    else if id == "None" || id == "null" then .ok .null
    else .err ("Failed to parse python expression: unsupported name expression: " ++ id)
  | .call _ _ _ =>
    .fatal "Function call expressions are not supported in parameter values"
  | .attr _ _ =>
    .err ("Unsupported AST type, raw function calls: " ++ raw_function_calls)
  | .otherExpr _ =>
    .err ("Unsupported AST type, raw function calls: " ++ raw_function_calls)

/-- Decode a list of literal AST values in order. -/
def astListToStructured (exprs : List AstExpr) (raw_function_calls : String) :
    PRes (List Json) :=
  match exprs with
  | [] => .ok []
  | e :: rest =>
    (ast_expr_to_structured e raw_function_calls).bind (fun v =>
      (astListToStructured rest raw_function_calls).map (fun tail => v :: tail))

/-- Decode dict entries left to right into an accumulated map: entries
without a key (dict unpacking) are skipped, keys must decode to strings
(panic otherwise), and insertion uses map semantics. -/
def astDictToStructured (acc : List (String × Json))
    (entries : List (Option AstExpr × AstExpr))
    (raw_function_calls : String) : PRes (List (String × Json)) :=
  match entries with
  | [] => .ok acc
  | (none, _) :: rest => astDictToStructured acc rest raw_function_calls
  | (some key, value) :: rest =>
    (ast_expr_to_structured key raw_function_calls).bind (fun kv =>
      match kv with
      | .str ks =>
        (ast_expr_to_structured value raw_function_calls).bind (fun v =>
          astDictToStructured (amapInsert acc ks v) rest raw_function_calls)
      | _ => .fatal "Unsupported dict key type")

end

/-- Decode the keyword arguments of one call left to right into an
insertion-ordered parameter map; keywords without a name (**kwargs) are
skipped; from parse_ast.rs parse_from_ast_to_structured. -/
def keywordsToParameters (acc : List (String × Json))
    (keywords : List (Option String × AstExpr))
    (raw_function_calls : String) : PRes (List (String × Json)) :=
  match keywords with
  | [] => .ok acc
  | (none, _) :: rest => keywordsToParameters acc rest raw_function_calls
  | (some arg_name, value) :: rest =>
    (ast_expr_to_structured value raw_function_calls).bind (fun v =>
      keywordsToParameters (amapInsert acc arg_name v) rest raw_function_calls)

/-- Convert the parsed list elements into structured calls; from
parse_ast.rs parse_from_ast_to_structured. Each element must be a call
whose callee is a bare name; positional arguments are ignored. -/
def parse_from_ast_to_structured (function_calls_ast : List AstExpr)
    (raw_function_calls : String) : PRes (List FunctionCallHygienic) :=
  match function_calls_ast with
  | [] => .ok []
  | expr :: rest =>
    match expr with
    | .call func _args keywords =>
      ((match func with
        | .name id => .ok id
        | _ => .err "Unsupported function expression type" : PRes String)).bind
        (fun func_name =>
          (keywordsToParameters [] keywords raw_function_calls).bind (fun parameters =>
            (parse_from_ast_to_structured rest raw_function_calls).map (fun tail =>
              ⟨func_name, parameters⟩ :: tail)))
    | _ => .err "Expected a function call expression"

/-- Parse response text into the element list of a single list-literal
expression; from parse_ast.rs parse_from_string_to_ast. The external
rustpython parse is the pyparse argument. -/
def parse_from_string_to_ast (pyparse : PyParseFn) (function_calls : String) :
    PRes (List AstExpr) :=
  match pyparse function_calls with
  | .error e =>
    .err ("Python function calls parsing failed: invalid syntax: " ++ e)
  | .ok m =>
    match m with
    | .expression body =>
      match body with
      | .list elts => .ok elts
      | _ => .err "Python function calls parsing failed: expected a list expression"
    | .otherMod _ => .err "Python function calls parsing failed: expected an expression"

/-- Decode a textual call list into structured calls; from parse_ast.rs
decode_function_list. -/
def decode_function_list (pyparse : PyParseFn) (function_calls : String) :
    PRes (List FunctionCallHygienic) :=
  (parse_from_string_to_ast pyparse function_calls).bind (fun ast =>
    parse_from_ast_to_structured ast function_calls)

/-- Participant in a dialogue; from ace_problem.rs DialogueParticipant. -/
inductive DialogueParticipant where
  | user : DialogueParticipant
  | agent : DialogueParticipant
  | execution : DialogueParticipant
deriving Repr, DecidableEq

/-- One transcript entry; from ace_problem.rs DialogueEntry. -/
structure DialogueEntry where
  sender : DialogueParticipant
  recipient : DialogueParticipant
  message : String
deriving Repr, DecidableEq

/-- Unified agent task state; from ace_problem.rs AgentProblemState. -/
structure AgentProblemState where
  has_transition_perturbation : Bool
  perturbed : Bool
  initial_config : WorldState
  involved_classes : List String
  question : Option String
  num_steps : Nat
  world_state : WorldState
  dialogue_history : List DialogueEntry
  mile_stones : List String
deriving Repr, DecidableEq

/-- Render the transcript for the LLM prompt; from ace_problem.rs
AgentProblemState::get_inference_message. -/
def AgentProblemState.get_inference_message (st : AgentProblemState) : String :=
  st.dialogue_history.foldl (fun acc entry =>
    let sender_str :=
      match entry.sender with
      | .user => "user"
      | .agent => "agent"
      | .execution => "execution"
    acc ++ sender_str ++ ": " ++ entry.message ++ "\n") ""

/-- True when the state requires an LLM call; from ace_problem.rs
AgentProblemState::needs_llm_response. -/
def AgentProblemState.needs_llm_response (st : AgentProblemState) : Bool :=
  match st.dialogue_history.getLast? with
  | none => true
  | some last =>
    match last.recipient with
    | .user => true
    | .agent => true
    | .execution => false

/-- True when the state is waiting for local execution; from
ace_problem.rs AgentProblemState::is_pending_execution. -/
def AgentProblemState.is_pending_execution (st : AgentProblemState) : Bool :=
  match st.dialogue_history.getLast? with
  | none => false
  | some last => last.recipient == DialogueParticipant.execution

/-- Single-turn task state; from ace_problem.rs SingleTurnProblemState. -/
structure SingleTurnProblemState where
  has_transition_perturbation : Bool
  time : Option String
  profile : Option String
  first_turn : Bool
  question : String
  prev_llm_response : Option String
deriving Repr, DecidableEq

/-- Problem state variants; from ace_problem.rs AceProblemState. -/
inductive AceProblemState where
  | singleTurnNormal : SingleTurnProblemState → AceProblemState
  | singleTurnPreference : SingleTurnProblemState → AceProblemState
  | singleTurnSpecial : SingleTurnProblemState → AceProblemState
  | multiTurn : AgentProblemState → AceProblemState
  | multiStep : AgentProblemState → AceProblemState
deriving Repr

/-- One line written to the per-dataset output file for a completed
single-turn problem; from ace_generator.rs NormalResultEntry. -/
structure NormalResultEntry where
  id : String
  result : String
deriving Repr, DecidableEq

/-- One line written to the per-dataset output file for a finished agent
problem; from ace_generator.rs AgentResultEntry. -/
structure AgentResultEntry where
  id : String
  conversation : String
  final_world_state : WorldState
  output_function_calls : List String
deriving Repr, DecidableEq

/-- A record appended to the shared output file (file writes are modelled
by returning the records written). -/
inductive OutputRecord where
  | normal : NormalResultEntry → OutputRecord
  | agent : AgentResultEntry → OutputRecord
deriving Repr, DecidableEq

/-- The slice of AceProblem that handle_python_response reads and writes:
its identifier, its dataset item id and its state (the prompt-building
fields and the shared file handle are omitted as they do not affect the
modelled transition beyond the returned records). -/
structure AceProblem where
  identifier : String
  id : String
  state : AceProblemState
deriving Repr

/-- A response from the external model caller; from python_interface.rs
PythonResponse. -/
structure PythonResponse where
  identifier : String
  response : String
deriving Repr, DecidableEq

/-- The fixed step cap of agent problems; from ace_problem.rs MAX_TURNS. -/
def MAX_TURNS : Nat := 20

/-- Finalization record of an agent problem; from ace_problem.rs
AceProblem::agent_finish_conversation. -/
def agent_finish_conversation (id : String) (st : AgentProblemState) :
    OutputRecord :=
  .agent ⟨id, st.get_inference_message, st.world_state, st.mile_stones⟩

/-- The canned rebuke injected when the agent asks a question instead of
producing a call list. -/
def askedQuestionRebuke : String :=
  "Please do not ask me any questions, use the known conditions to solve the problem"

/-- The synthetic high-latency message injected by the transition
perturbation. -/
def highLatencyMessage : String :=
  "The API server is experiencing high latency due to network issues. Please retry your request."

/-- Serialize a batch of execution results as the source does before
appending them to the transcript. -/
def serializeExecutionResults (results : List ExecutionResult) : String :=
  (Json.arr (results.map ExecutionResult.toJson)).serialize

/-- The single-turn branch of handle_python_response (shared by the three
single-turn variants through an or-pattern in the source): a perturbed
first turn stashes the response and stays incomplete, otherwise one
normal result record is written and the problem completes. -/
def handleSingleTurnResponse (id : String) (st : SingleTurnProblemState)
    (responseText : String) :
    SingleTurnProblemState × List OutputRecord × Bool :=
  if st.has_transition_perturbation && st.first_turn then
    ({ st with first_turn := false, prev_llm_response := some responseText }, [], false)
  else
    (st, [.normal ⟨id, responseText⟩], true)

/-- The MultiStep branch of handle_python_response; from ace_problem.rs.
Returns the new agent state, the records written, and the completion
flag. -/
def handleMultiStepResponse (pyparse : PyParseFn) (id : String)
    (st : AgentProblemState) (responseText : String) :
    PRes (AgentProblemState × List OutputRecord × Bool) :=
  if !(st.needs_llm_response && !st.is_pending_execution) then
    .fatal "handle_python_response called but state was pending execution"
  else
  let st1 := { st with num_steps := st.num_steps + 1 }
  if st1.num_steps > MAX_TURNS then
    .ok (st1, [agent_finish_conversation id st1], true)
  else
    match st1.dialogue_history.getLast? with
    | none => .fatal "In multi-step, dialogue history is initialized with user question"
    | some last =>
      if last.recipient != DialogueParticipant.agent then
        .fatal "assert last_recipient is Agent failed"
      else
        let st2 := { st1 with dialogue_history := st1.dialogue_history
          ++ [⟨.agent, .execution, responseText⟩] }
        if strContainsSub responseText "finish conversation" then
          .ok (st2, [agent_finish_conversation id st2], true)
        else
          match decode_function_list pyparse responseText with
          | .fatal m => .fatal m
          | .err e =>
            if !strStartsWith responseText "[" then
              let st3 := { st2 with dialogue_history := st2.dialogue_history
                ++ [⟨.execution, .agent, askedQuestionRebuke⟩] }
              .ok (st3, [], false)
            else
              let st3 := { st2 with dialogue_history := st2.dialogue_history
                ++ [⟨.execution, .agent, "Failed to parse function calls: " ++ e⟩] }
              .ok (st3, [], false)
          | .ok function_call_list =>
            let st3 := { st2 with mile_stones := st2.mile_stones ++ [responseText] }
            if st3.has_transition_perturbation && !st3.perturbed then
              let st4 := { st3 with
                perturbed := true,
                dialogue_history := st3.dialogue_history
                  ++ [⟨.execution, .agent, highLatencyMessage⟩] }
              if !st4.needs_llm_response then
                .fatal "MultiStep: after handle_python_response, state should need LLM response"
              else .ok (st4, [], false)
            else
              (st3.world_state.execute_function_calls function_call_list).bind
                (fun p =>
                  let st4 := { st3 with
                    world_state := p.1,
                    dialogue_history := st3.dialogue_history
                      ++ [⟨.execution, .agent, serializeExecutionResults p.2⟩] }
                  if !st4.needs_llm_response then
                    .fatal "MultiStep: after handle_python_response, state should need LLM response"
                  else .ok (st4, [], false))

/-- The MultiTurn branch of handle_python_response; from ace_problem.rs.
The step cap is checked only at the end of the successful
decode-and-execute path. -/
def handleMultiTurnResponse (pyparse : PyParseFn) (id : String)
    (st : AgentProblemState) (responseText : String) :
    PRes (AgentProblemState × List OutputRecord × Bool) :=
  if !(st.needs_llm_response && !st.is_pending_execution) then
    .fatal "handle_python_response called but state was pending execution"
  else
  let st1 := { st with num_steps := st.num_steps + 1 }
  match st1.dialogue_history.getLast? with
  | none =>
    let st2 := { st1 with dialogue_history :=
      [⟨.user, .agent, responseText⟩] }
    if !st2.needs_llm_response then
      .fatal "MultiTurn: after user initial message, state should need LLM response"
    else .ok (st2, [], false)
  | some last =>
    match last.recipient with
    | .user =>
      let st2 := { st1 with dialogue_history := st1.dialogue_history
        ++ [⟨.user, .agent, responseText⟩] }
      if strContainsSub responseText "finish conversation" then
        .ok (st2, [agent_finish_conversation id st2], true)
      else if !st2.needs_llm_response then
        .fatal "MultiTurn: after user response, state should need LLM response"
      else .ok (st2, [], false)
    | .agent | .execution =>
      let st2 := { st1 with dialogue_history := st1.dialogue_history
        ++ [⟨.agent, .execution, responseText⟩] }
      if strContainsSub responseText "finish conversation" then
        .ok (st2, [agent_finish_conversation id st2], true)
      else
        match decode_function_list pyparse responseText with
        | .fatal m => .fatal m
        | .err e =>
          if !strStartsWith responseText "[" then
            let st3 := { st2 with dialogue_history :=
              st2.dialogue_history.dropLast
                ++ [⟨.agent, .user, responseText⟩] }
            if !st3.needs_llm_response then
              .fatal "MultiTurn: after agent message to user, state should need LLM response"
            else .ok (st3, [], false)
          else
            let st3 := { st2 with dialogue_history := st2.dialogue_history
              ++ [⟨.execution, .agent, "Failed to parse function calls: " ++ e⟩] }
            .ok (st3, [], false)
        | .ok function_call_list =>
          let st3 := { st2 with mile_stones := st2.mile_stones ++ [responseText] }
          (if st3.has_transition_perturbation && !st3.perturbed then
            .ok ({ st3 with
              perturbed := true,
              dialogue_history := st3.dialogue_history
                ++ [⟨.execution, .agent, highLatencyMessage⟩] })
          else
            (st3.world_state.execute_function_calls function_call_list).map
              (fun p =>
                { st3 with
                  world_state := p.1,
                  dialogue_history := st3.dialogue_history
                    ++ [⟨.execution, .agent, serializeExecutionResults p.2⟩] })
            : PRes AgentProblemState).bind (fun st4 =>
              if st4.num_steps > MAX_TURNS then
                .ok (st4, [agent_finish_conversation id st4], true)
              else if !st4.needs_llm_response then
                .fatal "MultiTurn: after execution, state should need LLM response"
              else .ok (st4, [], false))

/-- Route one model response into the problem state machine; from
ace_problem.rs AceProblem::handle_python_response. Returns the updated
problem, the output records written, and true iff the problem is now
complete. -/
def AceProblem.handle_python_response (pyparse : PyParseFn) (p : AceProblem)
    (response : PythonResponse) : PRes (AceProblem × List OutputRecord × Bool) :=
  if p.identifier != response.identifier then
    .fatal "assert identifier equality failed"
  else
    match p.state with
    | .singleTurnNormal st =>
      let r := handleSingleTurnResponse p.id st response.response
      .ok ({ p with state := .singleTurnNormal r.1 }, r.2.1, r.2.2)
    | .singleTurnPreference st =>
      let r := handleSingleTurnResponse p.id st response.response
      .ok ({ p with state := .singleTurnPreference r.1 }, r.2.1, r.2.2)
    | .singleTurnSpecial st =>
      let r := handleSingleTurnResponse p.id st response.response
      .ok ({ p with state := .singleTurnSpecial r.1 }, r.2.1, r.2.2)
    | .multiStep st =>
      (handleMultiStepResponse pyparse p.id st response.response).map (fun r =>
        ({ p with state := .multiStep r.1 }, r.2.1, r.2.2))
    | .multiTurn st =>
      (handleMultiTurnResponse pyparse p.id st response.response).map (fun r =>
        ({ p with state := .multiTurn r.1 }, r.2.1, r.2.2))

/-- Standardize a string for comparison: strip the characters of the
regex class, lowercase, replace single quotes by double quotes; from
ace_evaluator.rs standardize_string. -/
def standardize_string (input : String) : String :=
  let removed := input.data.filter (fun c =>
    !(c == ' ' || c == ',' || c == '.' || c == '/'
      || c == '-' || c == '_' || c == '*' || c == '^'))
  String.mk (removed.map (fun c =>
    let cl := c.toLower
    if cl = '\x27' then '"' else cl))

/-- Count function names over a list of call objects; from
ace_evaluator.rs sum_key_list. The source uses a HashMap, whose iteration
order is unspecified; the embedding fixes first-encounter order, which
the validity verdict does not depend on. -/
def sum_key_list (data : List Json) : List (String × Nat) :=
  data.foldl (fun counts item =>
    match item with
    | .obj kvs =>
      kvs.foldl (fun c kv => amapInsert c kv.1 ((amapGet c kv.1).getD 0 + 1)) counts
    | _ => counts) []

/-- Find a function description whose name occurs in the given call name;
from ace_evaluator.rs find_description. -/
def find_description (func_descriptions : List Json) (name : String) :
    Option Json :=
  func_descriptions.find? (fun desc =>
    match (desc.asObj.bind (fun o => amapGet o "name")).bind Json.asStr with
    | some fn => strContainsSub name fn
    | none => false)

/-- Verdict triple of the checkers: valid flag, error messages, error
type; from ace_evaluator.rs. Debug dumps of values inside messages are
omitted throughout. -/
def CheckVerdict : Type := Bool × List String × String

/-- String comparison with standardization: agent categories require
equality, the rest require the standardized answer to occur inside the
standardized model output; from ace_evaluator.rs string_checker. -/
def string_checker (param model_output possible_answer func_name
    test_category : String) : CheckVerdict :=
  let std_model := standardize_string model_output
  let std_answer := standardize_string possible_answer
  if strContainsSub test_category "agent" then
    if std_model != std_answer then
      (false, ["wrong value for parameter (" ++ param ++ ") of api (" ++ func_name
        ++ "): [expected: " ++ possible_answer ++ ", real: " ++ model_output ++ "]"],
        "value_error:string")
    else (true, [], "")
  else if !(strContainsSub std_model std_answer) then
    (false, ["wrong value for parameter (" ++ param ++ ") of api (" ++ func_name
      ++ "): [expected: " ++ possible_answer ++ ", real: " ++ model_output ++ "]"],
      "value_error:string")
  else (true, [], "")

/-- List comparison with standardization of string elements; from
ace_evaluator.rs list_checker. -/
def list_checker (param : String) (model_output possible_answer : Json)
    (func_name : String) : CheckVerdict :=
  match model_output with
  | .arr model_arr =>
    match possible_answer with
    | .arr answer_arr =>
      let stdOf : Json → String := fun v =>
        match v with
        | .str s => standardize_string s
        | _ => v.serialize
      if model_arr.map stdOf != answer_arr.map stdOf then
        (false, ["wrong value for parameter (" ++ param ++ ") of api ("
          ++ func_name ++ ")"], "value_error:list/tuple")
      else (true, [], "")
    | _ =>
      (false, ["Invalid answer format for parameter (" ++ param ++ ")"],
        "internal_error")
  | _ =>
    (false, ["wrong type for parameter (" ++ param ++ ") of api (" ++ func_name
      ++ "): expected array"], "type_error")

mutual

/-- Recursive dictionary comparison; from ace_evaluator.rs dict_checker.
Model values occurring as the strings "true"/"false" are normalized to
booleans as in the source; when such a value meets an object-typed
expected value the normalized boolean fails the nested object check, and
the embedding returns that failure verdict directly. -/
def dict_checker (param : String) (model_output possible_answer : Json)
    (func_name : String) : CheckVerdict :=
  match model_output with
  | .obj model_entries =>
    match possible_answer with
    | .obj answer_entries =>
      if model_entries.length != answer_entries.length then
        (false, ["wrong value for parameter (" ++ param ++ ") of api ("
          ++ func_name ++ ")"], "value_error")
      else dictCheckerEntries param model_entries answer_entries func_name
    | _ =>
      (false, ["Invalid answer format for parameter (" ++ param ++ ")"],
        "internal_error")
  | _ =>
    (false, ["wrong type for parameter (" ++ param ++ ") of api (" ++ func_name
      ++ "): [expected: object]"], "type_error")

/-- The entry loop of dict_checker over the model object entries. -/
def dictCheckerEntries (param : String)
    (entries answer_entries : List (String × Json)) (func_name : String) :
    CheckVerdict :=
  match entries with
  | [] => (true, [], "")
  | (key, model_val) :: rest =>
    match amapGet answer_entries key with
    | none =>
      (false, ["wrong value for parameter (" ++ param ++ ") of api ("
        ++ func_name ++ ")"], "value_error")
    | some expected_val =>
      match expected_val with
      | .obj _ =>
        let r :=
          match model_val with
          | .str s =>
            if s == "true" || s == "false" then
              ((false, ["wrong type for parameter (" ++ param ++ ") of api ("
                ++ func_name ++ "): [expected: object]"], "type_error") : CheckVerdict)
            else dict_checker param model_val expected_val func_name
          | _ => dict_checker param model_val expected_val func_name
        if !r.1 then r
        else dictCheckerEntries param rest answer_entries func_name
      | _ =>
        let std_model :=
          match model_val with
          | .str s =>
            if s == "true" then "true"
            else if s == "false" then "false"
            else standardize_string s
          | v => v.serialize
        let std_expected :=
          match expected_val with
          | .str s => standardize_string s
          | v => v.serialize
        if !(strContainsSub std_model std_expected) then
          (false, ["wrong value for parameter (" ++ param ++ ") of api ("
            ++ func_name ++ ")"], "value_error")
        else dictCheckerEntries param rest answer_entries func_name

end

/-- Element-wise dictionary-list comparison; from ace_evaluator.rs
list_dict_checker. -/
def list_dict_checker (param : String) (model_output possible_answer : Json)
    (func_name : String) : CheckVerdict :=
  match model_output with
  | .arr model_arr =>
    match possible_answer with
    | .arr answer_arr =>
      if model_arr.length != answer_arr.length then
        (false, ["wrong value for parameter (" ++ param ++ ") of api ("
          ++ func_name ++ ")"], "value_error:list_dict_count")
      else
        let rec loop : List (Json × Json) → CheckVerdict
          | [] => (true, [], "")
          | (m, a) :: rest =>
            let r := dict_checker param m a func_name
            if !r.1 then r else loop rest
        loop (model_arr.zip answer_arr)
    | _ =>
      (false, ["Invalid answer format for parameter (" ++ param ++ ")"],
        "internal_error")
  | _ =>
    (false, ["wrong type for parameter (" ++ param ++ ") of api ("
      ++ func_name ++ ")"], "type_error")

/-- Normalize the strings "true"/"false" to booleans as the source does
before comparing a parameter value. -/
def normalizeBoolStr (v : Json) : Json :=
  if Json.beq v (.str "true") then .bool true
  else if Json.beq v (.str "false") then .bool false
  else v

/-- The numeric comparison tolerance of simple_function_checker. -/
def numericTolerance : Rat := 1 / 1000000000

/-- The per-parameter loop of simple_function_checker over the model call
parameters. -/
def simpleParamLoop (entries : List (String × Json))
    (param_details possible_answer_obj : List (String × Json))
    (func_name test_category : String) : CheckVerdict :=
  match entries with
  | [] => (true, [], "")
  | (param, value0) :: rest =>
    if !(amapContains param_details param)
        || !(amapContains possible_answer_obj param) then
      (false, ["addition params: " ++ param], "addition_args")
    else
      let full_param_details := (amapGet param_details param).getD Json.null
      let expected_type :=
        ((full_param_details.asObj.bind (fun o => amapGet o "type")).bind
          Json.asStr).getD "string"
      let expected_value := (amapGet possible_answer_obj param).getD Json.null
      let value := normalizeBoolStr value0
      if expected_type == "object" || expected_type == "dict" then
        let r := dict_checker param value expected_value func_name
        if !r.1 then r
        else simpleParamLoop rest param_details possible_answer_obj func_name test_category
      else if expected_type == "array" || expected_type == "list"
          || expected_type == "tuple" || expected_type == "list(string)"
          || expected_type == "list(enum)" then
        let nested_type :=
          ((full_param_details.asObj.bind (fun o => amapGet o "items")).bind
            (fun i => i.asObj.bind (fun o => amapGet o "type"))).bind Json.asStr
        if nested_type == some "object" then
          let r := list_dict_checker param value expected_value func_name
          if !r.1 then r
          else simpleParamLoop rest param_details possible_answer_obj func_name test_category
        else
          let r := list_checker param value expected_value func_name
          if !r.1 then r
          else simpleParamLoop rest param_details possible_answer_obj func_name test_category
      else if expected_type == "string" || expected_type == "enum" then
        match value.asStr, expected_value.asStr with
        | some model_str, some answer_str =>
          let r := string_checker param model_str answer_str func_name test_category
          if !r.1 then r
          else simpleParamLoop rest param_details possible_answer_obj func_name test_category
        | _, _ =>
          simpleParamLoop rest param_details possible_answer_obj func_name test_category
      else
        match value.asF64, expected_value.asF64 with
        | some m, some a =>
          if abs (m - a) > numericTolerance then
            (false, ["wrong value for parameter (" ++ param ++ ") of api ("
              ++ func_name ++ "): [expected: " ++ expected_value.serialize
              ++ ", real: " ++ value.serialize ++ "]"], "value_error")
          else simpleParamLoop rest param_details possible_answer_obj func_name test_category
        | _, _ =>
          if !(Json.beq value expected_value) then
            (false, ["wrong value for parameter (" ++ param ++ ") of api ("
              ++ func_name ++ "): [expected: " ++ expected_value.serialize
              ++ ", real: " ++ value.serialize ++ "]"], "value_error")
          else simpleParamLoop rest param_details possible_answer_obj func_name test_category

/-- Check one decoded call against one expected call; from
ace_evaluator.rs simple_function_checker. -/
def simple_function_checker (func_description model_output possible_answers : Json)
    (question test_category : String) : CheckVerdict :=
  let func_name :=
    ((func_description.asObj.bind (fun o => amapGet o "name")).bind Json.asStr).getD ""
  match model_output with
  | .obj model_obj =>
    match possible_answers with
    | .obj pa_entries =>
      let possible_answer := ((pa_entries.head?).map Prod.snd).getD (Json.obj [])
      match possible_answer with
      | .obj possible_answer_obj =>
        let model_params0 := ((model_obj.head?).map Prod.snd).getD (Json.obj [])
        let func_params := func_description.asObj.bind (fun o => amapGet o "parameters")
        let properties :=
          (func_params.bind (fun p => p.asObj.bind (fun o => amapGet o "properties"))).bind
            Json.asObj
        let modelParamsEmpty :=
          match model_params0.asObj with
          | some o => o.isEmpty
          | none => true
        let propsEmpty :=
          match properties with
          | some p => p.isEmpty
          | none => true
        if modelParamsEmpty && (func_params.isNone || propsEmpty) then
          (true, [], "")
        else if !(amapContains model_obj func_name) then
          let actual_name := ((model_obj.head?).map Prod.fst).getD ""
          (false, ["wrong_function: expected " ++ func_name ++ ", real " ++ actual_name],
            "wrong_function_name")
        else
          match (amapGet model_obj func_name).getD Json.null with
          | .obj model_params_obj =>
            match properties with
            | none => (true, [], "")
            | some param_details =>
              let required_params :=
                ((func_params.bind (fun p => p.asObj.bind (fun o => amapGet o "required"))).bind
                  Json.asArr).getD [] |>.filterMap Json.asStr
              match required_params.find? (fun r => !(amapContains model_params_obj r)) with
              | some missing =>
                (false, ["lack required_params: " ++ missing], "lack_args")
              | none =>
                simpleParamLoop model_params_obj param_details possible_answer_obj
                  func_name test_category
          | _ => (false, ["Invalid model params format"], "wrong_output_format")
      | _ => (false, ["Invalid answer format"], "internal_error")
    | _ => (false, ["Invalid answer format"], "internal_error")
  | _ => (false, ["Invalid model output format"], "wrong_output_format")

/-- Strip one trailing underscore-digits suffix from a name, as the
regex replacement does; from ace_evaluator.rs normal_checker. -/
def stripNumSuffix (s : String) : String :=
  let cs := s.data.reverse
  let digits := cs.takeWhile Char.isDigit
  if digits.isEmpty then s
  else
    match cs.drop digits.length with
    | '_' :: rest => String.mk rest.reverse
    | _ => s

/-- First key of a call object, used to pick match candidates; from
ace_evaluator.rs normal_checker. -/
def firstKey (item : Json) : Option String :=
  item.asObj.bind (fun o => (o.head?).map Prod.fst)

/-- Scan the decoded calls for one expected call: the first decoded call
whose first key equals the cleaned expected name decides the verdict
(valid, or its failure verdict is returned immediately); from the inner
loop of ace_evaluator.rs normal_checker. -/
def normalCheckerScan (func_description : Json) (clean_func_name : String)
    (items : List Json) (possible_answer : Json)
    (question test_category : String) : Option CheckVerdict :=
  match items with
  | [] => none
  | item :: rest =>
    if firstKey item == some clean_func_name then
      let r := simple_function_checker func_description item possible_answer
        question test_category
      if r.1 then some (true, [], "")
      else if !r.2.1.isEmpty then some r
      else normalCheckerScan func_description clean_func_name rest possible_answer
        question test_category
    else
      normalCheckerScan func_description clean_func_name rest possible_answer
        question test_category

/-- The per-expected-call loop of normal_checker. -/
def normalCheckerExpectedLoop (func_descriptions model_output : List Json)
    (entries : List (String × Json)) (question test_category : String) :
    CheckVerdict :=
  match entries with
  | [] => (true, [], "")
  | (func_name, v) :: rest =>
    let clean_func_name := stripNumSuffix func_name
    let possible_answer := Json.obj [(clean_func_name, v)]
    match find_description func_descriptions func_name with
    | none =>
      (false, ["Function description not found for: " ++ func_name],
        "internal_error")
    | some func_description =>
      match normalCheckerScan func_description clean_func_name model_output
        possible_answer question test_category with
      | some r =>
        if r.1 then
          normalCheckerExpectedLoop func_descriptions model_output rest
            question test_category
        else r
      | none =>
        (false, ["Parallel function call failed"], "function_mismatch")

/-- Compare a decoded call list against one ground-truth answer; from
ace_evaluator.rs normal_checker. -/
def normal_checker (func_descriptions model_output : List Json)
    (possible_answers : Json) (question test_category : String) : CheckVerdict :=
  match possible_answers with
  | .obj pa_entries =>
    if model_output.length != pa_entries.length then
      (false, ["The number of functions does not match the answer."],
        "wrong functions number")
    else
      let possible_answers_list := pa_entries.map (fun kv =>
        Json.obj [(stripNumSuffix kv.1, kv.2)])
      let output_counts := sum_key_list model_output
      let answer_counts := sum_key_list possible_answers_list
      match output_counts.find? (fun nc => !(amapContains answer_counts nc.1)) with
      | some nc =>
        (false, ["extra function detected: " ++ nc.1 ++ " is not in the ground truth"],
          "function_mismatch")
      | none =>
        match answer_counts.find? (fun nc => !(amapContains output_counts nc.1)) with
        | some nc =>
          (false, ["missing function: " ++ nc.1 ++ " is not in the model output"],
            "function_mismatch")
        | none =>
          match output_counts.find? (fun nc =>
            (amapGet answer_counts nc.1).getD 0 != nc.2) with
          | some nc =>
            (false, ["incorrect count for function " ++ nc.1 ++ ": [expected: "
              ++ toString ((amapGet answer_counts nc.1).getD 0) ++ ", actual: "
              ++ toString nc.2 ++ "]"], "function_mismatch")
          | none =>
            normalCheckerExpectedLoop func_descriptions model_output pa_entries
              question test_category
  | _ => (false, ["Invalid answer format"], "internal_error")

/-- Extract the first outermost bracketed slice of the text; from
ace_evaluator.rs extract_outermost_bracket_content (modelled over
characters; the source indexes bytes, which coincides on the ASCII call
texts it is applied to). -/
def extractBracketLoop : List Char → Int → Bool → List Char → Option String
  | [], _, _, _ => none
  | c :: rest, depth, started, acc =>
    if c = '[' then
      if depth == 0 then extractBracketLoop rest (depth + 1) true [c]
      else extractBracketLoop rest (depth + 1) started (if started then acc ++ [c] else acc)
    else if c = ']' then
      let depth1 := depth - 1
      if depth1 == 0 && started then some (String.mk (acc ++ [c]))
      else extractBracketLoop rest depth1 started (if started then acc ++ [c] else acc)
    else extractBracketLoop rest depth started (if started then acc ++ [c] else acc)

/-- Entry point of the bracket extraction. -/
def extract_outermost_bracket_content (text : String) : Option String :=
  extractBracketLoop text.data 0 false []

/-- Resolve a callee expression to a function name, supporting dotted
attribute access; from the decode_ast reference implementation in
ace_evaluator.rs (resolve_func_name). -/
def resolve_func_name : AstExpr → Except String String
  | .name n => .ok n
  | .attr value attr =>
    (resolve_func_name value).map (fun v => v ++ "." ++ attr)
  | _ => .error "Cannot resolve function name"

mutual

/-- Resolve one AST node to a JSON value for grading; from the
decode_ast reference implementation in ace_evaluator.rs
(resolve_ast_by_type, whose live definition is compiled from outside the
given sources; the reference body is kept verbatim in the file). Unlike
the execution-path decoder this one recovers from every unsupported
node, maps out-of-range integers to 0, renders ellipsis as "...", turns
unknown bare names into strings, and accepts nested calls as objects. -/
def resolve_ast_by_type : AstExpr → Except String Json
  | .constant c =>
    match c with
    | .str s => .ok (.str s)
    | .int i => .ok (.int (if fitsI64 i then i else 0))
    | .float q => .ok (.float q)
    | .bool b => .ok (.bool b)
    | .none => .ok .null
    | .ellipsis => .ok (.str "...")
    | .otherConst _ => .error "Unsupported constant type"
  | .unaryOp op operand =>
    match op with
    | .usub =>
      (resolve_ast_by_type operand).bind (fun v =>
        match v with
        | .int i => .ok (.int (-i))
        | .float q => .ok (.float (-q))
        | _ => .error "Cannot negate non-numeric value")
    | .otherOp _ => .error "Unsupported unary operator"
  | .list l => (resolveAstList l).map Json.arr
  | .tuple t => (resolveAstList t).map Json.arr
  | .dict entries => (resolveAstDict [] entries).map Json.obj
  | .name n =>
    if n == "True" then .ok (.bool true)
    else if n == "False" then .ok (.bool false)
    else if n == "None" then .ok .null
    else .ok (.str n)
  | .call func _args keywords =>
    (resolve_func_name func).bind (fun func_name =>
      (resolveAstKeywords [] keywords).map (fun args =>
        Json.obj [(func_name, Json.obj args)]))
  | .attr _ _ => .error "Unsupported AST type"
  | .otherExpr _ => .error "Unsupported AST type"

/-- Resolve a list of AST nodes in order. -/
def resolveAstList : List AstExpr → Except String (List Json)
  | [] => .ok []
  | e :: rest =>
    (resolve_ast_by_type e).bind (fun v =>
      (resolveAstList rest).map (fun tail => v :: tail))

/-- Resolve dict entries left to right into an accumulated map; keys
that do not resolve to strings are rendered with their JSON
serialization, keyless entries are skipped. -/
def resolveAstDict (acc : List (String × Json)) :
    List (Option AstExpr × AstExpr) → Except String (List (String × Json))
  | [] => .ok acc
  | (none, _) :: rest => resolveAstDict acc rest
  | (some key, value) :: rest =>
    (resolve_ast_by_type key).bind (fun kv =>
      let key_str :=
        match kv with
        | .str s => s
        | v => v.serialize
      (resolve_ast_by_type value).bind (fun v =>
        resolveAstDict (amapInsert acc key_str v) rest))

/-- Resolve keyword arguments of a nested call (named ones only) left to
right into an accumulated map. -/
def resolveAstKeywords (acc : List (String × Json)) :
    List (Option String × AstExpr) → Except String (List (String × Json))
  | [] => .ok acc
  | (none, _) :: rest => resolveAstKeywords acc rest
  | (some arg_name, value) :: rest =>
    (resolve_ast_by_type value).bind (fun v =>
      resolveAstKeywords (amapInsert acc arg_name v) rest)

end

/-- Decode the elements of the grading call list. -/
def decodeAstElems : List AstExpr → Except String (List Json)
  | [] => .ok []
  | elem :: rest =>
    match elem with
    | .call func _args keywords =>
      (resolve_func_name func).bind (fun func_name =>
        (resolveAstKeywords [] keywords).bind (fun args =>
          (decodeAstElems rest).map (fun tail =>
            Json.obj [(func_name, Json.obj args)] :: tail)))
    | _ => .error "Expected Call"

/-- Parse and decode a grading call list; from the decode_ast reference
implementation in ace_evaluator.rs (the live definition is compiled from
outside the given sources). -/
def decode_ast (pyparse : PyParseFn) (input_str : String) :
    Except String (List Json) :=
  match pyparse input_str with
  | .error e => .error ("Failed to parse AST: " ++ e)
  | .ok m =>
    match m with
    | .expression body =>
      match body with
      | .list l => decodeAstElems l
      | _ => .error "Expected list expression"
    | .otherMod _ => .error "Expected expression"

/-- Format validity of the decoded output: every element an object; from
the is_function_call_format_valid reference implementation in
ace_evaluator.rs. -/
def is_function_call_format_valid (decoded_output : List Json) : Bool :=
  decoded_output.all (fun v => v.asObj.isSome)

/-- Shape check applied by serde when parsing one result line into
NormalResultEntry (string id and string result required). -/
def isNormalResultEntryJson (v : Json) : Bool :=
  match v.asObj with
  | some kvs =>
    (match amapGet kvs "id" with
     | some (.str _) => true
     | _ => false) &&
    (match amapGet kvs "result" with
     | some (.str _) => true
     | _ => false)
  | none => false

/-- Try the ground-truth answers in order until one validates; returns
the success flag and the error pairs collected before it; from the inner
loop of evaluate_normal_single_turn. -/
def tryPossibleAnswers (prompt_item decoded : List Json)
    (question test_category : String) :
    List Json → Bool × List (List String × String)
  | [] => (false, [])
  | pa :: rest =>
    let r := normal_checker prompt_item decoded pa question test_category
    if r.1 then (true, [])
    else
      let tail := tryPossibleAnswers prompt_item decoded question test_category rest
      (tail.1, (r.2.1, r.2.2) :: tail.2)

/-- Grade one entry triple (problem, result, possible answer): returns
the per-item records emitted (none when the entry validates) and 1 when
the entry was counted correct; from the loop body of
evaluate_normal_single_turn. -/
def evalNormalEntry (pyparse : PyParseFn) (problem result possible : Json)
    (test_category : String) : List Json × Nat :=
  let id := ((problem.asObj.bind (fun o => amapGet o "id")).bind Json.asStr).getD ""
  let question :=
    ((problem.asObj.bind (fun o => amapGet o "question")).bind Json.asStr).getD ""
  let model_result_item :=
    ((result.asObj.bind (fun o => amapGet o "result")).bind Json.asStr).getD ""
  let prompt_item :=
    ((problem.asObj.bind (fun o => amapGet o "function")).bind Json.asArr).getD []
  let possible_answer_item :=
    ((possible.asObj.bind (fun o => amapGet o "ground_truth"))).getD Json.null
  match extract_outermost_bracket_content model_result_item with
  | none =>
    ([Json.obj [("id", .str id), ("valid", .bool false),
      ("error", .arr [.str "Invalid syntax. No bracket content found."]),
      ("error_type", .str "wrong_output_format"),
      ("model_result", .str model_result_item),
      ("possible_answer", possible_answer_item)]], 0)
  | some model_result_raw =>
    match decode_ast pyparse model_result_raw with
    | .error e =>
      ([Json.obj [("id", .str id), ("valid", .bool false),
        ("error", .arr [.str ("Invalid syntax. Failed to decode AST. " ++ e)]),
        ("error_type", .str "wrong_output_format"),
        ("model_result_raw", .str model_result_raw),
        ("possible_answer", possible_answer_item)]], 0)
    | .ok decoded_output =>
      if !is_function_call_format_valid decoded_output then
        ([Json.obj [("id", .str id), ("valid", .bool false),
          ("error", .arr [.str "The output format does not meet the specified requirements."]),
          ("error_type", .str "wrong_output_format"),
          ("model_result", .str model_result_raw),
          ("possible_answer", possible_answer_item)]], 0)
      else
        let possible_answers :=
          match possible_answer_item with
          | .arr xs => xs
          | other => [other]
        let tried := tryPossibleAnswers prompt_item decoded_output question
          test_category possible_answers
        if tried.1 then ([], 1)
        else
          match tried.2 with
          | [] => ([], 0)
          | (error, error_type) :: _ =>
            ([Json.obj [("id", .str id), ("valid", .bool false),
              ("error", .arr (error.map Json.str)),
              ("error_type", .str error_type),
              ("model_result", .str model_result_raw),
              ("possible_answer", (possible_answers.getLast?).getD Json.null)]], 0)

/-- Grade all entry triples, accumulating records and the correct count. -/
def evalNormalEntries (pyparse : PyParseFn) :
    List (Json × Json × Json) → String → List Json × Nat
  | [], _ => ([], 0)
  | (problem, result, possible) :: rest, test_category =>
    let this := evalNormalEntry pyparse problem result possible test_category
    let tail := evalNormalEntries pyparse rest test_category
    (this.1 ++ tail.1, this.2 + tail.2)

/-- The rounded accuracy of the summary record. -/
def summaryAccuracy (correct total : Nat) : Rat :=
  if total == 0 then 0
  else ((round ((correct : Rat) / (total : Rat) * 1000) : Int) : Rat) / 1000

/-- Grade a normal single-turn dataset: one record is emitted per failed
entry, and one summary record is prepended; from ace_evaluator.rs
evaluate_normal_single_turn. The length asserts and the NormalResultEntry
reparse of the source are the fatal outcomes. -/
def evaluate_normal_single_turn (pyparse : PyParseFn)
    (result_entries problem_entries possible_answer_entries : List Json)
    (test_category : String) : PRes (List Json) :=
  if problem_entries.length != possible_answer_entries.length then
    .fatal "assert problem and possible answer lengths failed"
  else if result_entries.length != problem_entries.length then
    .fatal "assert result and problem lengths failed"
  else if !(result_entries.all isNormalResultEntryJson) then
    .fatal "Failed to parse result entry into NormalResultEntry"
  else
    let triples := (problem_entries.zip (result_entries.zip possible_answer_entries)).map
      (fun t => (t.1, t.2.1, t.2.2))
    let graded := evalNormalEntries pyparse triples test_category
    let accuracy := summaryAccuracy graded.2 result_entries.length
    let summary := Json.obj [("accuracy", .float accuracy),
      ("correct_count", .int graded.2),
      ("total_count", .int result_entries.length)]
    .ok (summary :: graded.1)

/-- Deep structural parameter-map equality stated by the spec for normal
single-turn grading: order-independent keys, values compared by full
structural equality. This definition follows the words of the spec (not
the source) and exists to be compared against the behaviour of
normal_checker. -/
def specParamsEqual (expected decoded : List (String × Json)) : Bool :=
  expected.length == decoded.length &&
    expected.all (fun kv =>
      match amapGet decoded kv.1 with
      | some w => Json.beq kv.2 w
      | none => false)

/-- One decoded call matches one expected call under the comparison the
spec states: same name and equal full parameter map. Spec-worded
definition for comparison with normal_checker. -/
def specCallMatches (decoded : Json) (name : String) (params : Json) : Bool :=
  match decoded, params with
  | .obj [(dn, .obj dparams)], .obj eparams =>
    dn == name && specParamsEqual eparams dparams
  | _, _ => false

/-- Multiset matching the spec states: every expected call consumes one
structurally equal decoded call and every decoded call is consumed.
Spec-worded definition for comparison with normal_checker. -/
def specMatchCalls : List (String × Json) → List Json → Bool
  | [], decoded => decoded.isEmpty
  | (name, params) :: rest, decoded =>
    match decoded.findIdx? (fun d => specCallMatches d name params) with
    | some i => specMatchCalls rest (decoded.eraseIdx i)
    | none => false

/-- The comparison claimed by the spec for normal single-turn grading,
over the same inputs normal_checker receives (expected names carry the
duplicate-disambiguation suffix, which is stripped to the call name).
Spec-worded definition for comparison with normal_checker. -/
def specDeepMultisetMatch (model_output : List Json)
    (possible_answers : Json) : Bool :=
  match possible_answers with
  | .obj entries =>
    specMatchCalls (entries.map (fun kv => (stripNumSuffix kv.1, kv.2))) model_output
  | _ => false

/-
Theorems settling the claims.
-/

/-- Claim C7: for every dialogue-history state of an agent problem,
needs_llm_response and is_pending_execution are never simultaneously true
and never simultaneously false; the empty transcript and a last entry
addressed to User or Agent make exactly needs_llm_response true, and a
last entry addressed to Execution makes exactly is_pending_execution
true. Proved for all states, which covers all reachable ones. -/
theorem claim_C7_protocol_exhaustive (st : AgentProblemState) :
    st.needs_llm_response = !st.is_pending_execution ∧
    (st.dialogue_history = [] →
      st.needs_llm_response = true ∧ st.is_pending_execution = false) ∧
    (∀ e, st.dialogue_history.getLast? = some e →
      ((e.recipient = DialogueParticipant.user ∨
        e.recipient = DialogueParticipant.agent) →
        st.needs_llm_response = true ∧ st.is_pending_execution = false) ∧
      (e.recipient = DialogueParticipant.execution →
        st.is_pending_execution = true ∧ st.needs_llm_response = false)) := by
  refine ⟨?_, ?_, ?_⟩
  · cases h : st.dialogue_history.getLast? with
    | none =>
      simp [AgentProblemState.needs_llm_response,
        AgentProblemState.is_pending_execution, h]
    | some e =>
      cases he : e.recipient <;>
        simp [AgentProblemState.needs_llm_response,
          AgentProblemState.is_pending_execution, h, he]
  · intro hh
    simp [AgentProblemState.needs_llm_response,
      AgentProblemState.is_pending_execution, hh]
  · intro e he
    constructor
    · intro hr
      rcases hr with hr | hr <;>
        simp [AgentProblemState.needs_llm_response,
          AgentProblemState.is_pending_execution, he, hr]
    · intro hr
      simp [AgentProblemState.needs_llm_response,
        AgentProblemState.is_pending_execution, he, hr]

/-- Witness for C7: the two predicates disagree on a concrete state whose
transcript ends with an Execution-directed entry. -/
theorem claim_C7_protocol_exhaustive_witness :
    AgentProblemState.is_pending_execution
      ⟨false, false, ⟨none, none, none, none, none, false⟩, [], none, 0,
        ⟨none, none, none, none, none, false⟩,
        [⟨DialogueParticipant.agent, DialogueParticipant.execution, "x"⟩], []⟩ = true ∧
    AgentProblemState.needs_llm_response
      ⟨false, false, ⟨none, none, none, none, none, false⟩, [], none, 0,
        ⟨none, none, none, none, none, false⟩,
        [⟨DialogueParticipant.agent, DialogueParticipant.execution, "x"⟩], []⟩ = false :=
  ((claim_C7_protocol_exhaustive
      ⟨false, false, ⟨none, none, none, none, none, false⟩, [], none, 0,
        ⟨none, none, none, none, none, false⟩,
        [⟨DialogueParticipant.agent, DialogueParticipant.execution, "x"⟩], []⟩).2.2
    ⟨DialogueParticipant.agent, DialogueParticipant.execution, "x"⟩ rfl).2 rfl

/-- Claim C8: the parser recognizes a bare identifier in a value position
only as the literals true/false/null, accepting the Python-style case
variants True/False/None and the lowercase forms; every other bare
identifier yields the recoverable unbound-name parse error, not a
panic. -/
theorem claim_C8_bare_identifiers (id raw : String) :
    ((id = "True" ∨ id = "true") →
      ast_expr_to_structured (.name id) raw = .ok (.bool true)) ∧
    ((id = "False" ∨ id = "false") →
      ast_expr_to_structured (.name id) raw = .ok (.bool false)) ∧
    ((id = "None" ∨ id = "null") →
      ast_expr_to_structured (.name id) raw = .ok .null) ∧
    (id ≠ "True" → id ≠ "true" → id ≠ "False" → id ≠ "false" →
      id ≠ "None" → id ≠ "null" →
      ast_expr_to_structured (.name id) raw =
        .err ("Failed to parse python expression: unsupported name expression: "
          ++ id)) := by
  refine ⟨?_, ?_, ?_, ?_⟩
  · intro h
    rcases h with h | h <;> subst h <;> rfl
  · intro h
    rcases h with h | h <;> subst h <;> rfl
  · intro h
    rcases h with h | h <;> subst h <;> rfl
  · intro h1 h2 h3 h4 h5 h6
    simp [ast_expr_to_structured, h1, h2, h3, h4, h5, h6]

/-- Witness for C8: the identifier foo is rejected with the unbound-name
error. -/
theorem claim_C8_bare_identifiers_witness :
    ast_expr_to_structured (.name "foo") "[foo]" =
      .err "Failed to parse python expression: unsupported name expression: foo" :=
  (claim_C8_bare_identifiers "foo" "[foo]").2.2.2
    (by decide) (by decide) (by decide) (by decide) (by decide) (by decide)

/-- Claim C10: a recognized, non-bait call whose domain sub-state is None
is silently skipped by execute_function_calls: no ExecutionResult is
appended for it, so the result sequence can be shorter than the call
sequence. Shown for send_message without MessageApi, for
turn_on_wifi/login_device without BaseApi, and on a concrete two-call
batch producing one result. -/
theorem claim_C10_silent_skip_on_missing_substate :
    (∀ (ws : WorldState) (params : List (String × Json)),
      ws.message_api = none →
      WorldState.execute_function_calls ws [⟨"send_message", params⟩] = .ok (ws, [])) ∧
    (∀ (ws : WorldState) (params : List (String × Json)),
      ws.base_api = none →
      (WorldState.execute_function_calls ws [⟨"turn_on_wifi", params⟩]).map Prod.snd =
        .ok ([] : List ExecutionResult) ∧
      (WorldState.execute_function_calls ws [⟨"login_device", params⟩]).map Prod.snd =
        .ok ([] : List ExecutionResult)) ∧
    (WorldState.execute_function_calls
        ⟨some ⟨false, true⟩, none, none, none, none, false⟩
        [⟨"send_message", []⟩, ⟨"login_device", []⟩]).map (fun p => p.2.length) =
      .ok 1 := by
  refine ⟨?_, ?_, ?_⟩
  · intro ws params h
    rcases ws with ⟨b, m, r, f, t, bait⟩
    cases m with
    | none => rfl
    | some x => exact absurd h (by simp)
  · intro ws params h
    rcases ws with ⟨b, m, r, f, t, bait⟩
    cases b with
    | none =>
      cases f <;> cases m <;> cases r <;> exact ⟨rfl, rfl⟩
    | some x => exact absurd h (by simp)
  · rfl

/-- Witness for C10: send_message with no MessageApi instantiated yields
no execution result at all. -/
theorem claim_C10_silent_skip_witness :
    WorldState.execute_function_calls
      ⟨some ⟨true, true⟩, none, none, none, none, false⟩
      [⟨"send_message", [("sender_name", Json.str "Eve")]⟩] =
    .ok (⟨some ⟨true, true⟩, none, none, none, none, false⟩, []) :=
  claim_C10_silent_skip_on_missing_substate.1
    ⟨some ⟨true, true⟩, none, none, none, none, false⟩
    [("sender_name", Json.str "Eve")] rfl

/-- Claim C5: turn_on_wifi and login_device mutate the shared base flag
and the mirrored copy in every already-instantiated domain sub-state in
one call, and exactly one ExecutionResult (attributed to the base state)
is emitted; in particular, with MessageApi and ReminderApi instantiated,
login_device leaves both mirrored logged-in flags true and returns one
result. Stated for states whose base sub-state is present, as the spec's
scenario presumes. -/
theorem claim_C5_connectivity_mirroring :
    (∀ (ws : WorldState) (b : BaseApi) (params : List (String × Json)),
      ws.base_api = some b →
      WorldState.execute_function_calls ws [⟨"login_device", params⟩] =
        .ok ({ ws with
            base_api := some { b with logged_in := true },
            food_platform := ws.food_platform.map (fun fp =>
              { fp with base_api := { fp.base_api with logged_in := true } }),
            message_api := ws.message_api.map (fun m =>
              { m with base_api := { m.base_api with logged_in := true } }),
            reminder_api := ws.reminder_api.map (fun r =>
              { r with base_api := { r.base_api with logged_in := true } }) },
          [⟨true, "Device has been logged in"⟩])) ∧
    (∀ (ws : WorldState) (b : BaseApi) (params : List (String × Json)),
      ws.base_api = some b →
      WorldState.execute_function_calls ws [⟨"turn_on_wifi", params⟩] =
        .ok ({ ws with
            base_api := some { b with wifi := true },
            food_platform := ws.food_platform.map (fun fp =>
              { fp with base_api := { fp.base_api with wifi := true } }),
            message_api := ws.message_api.map (fun m =>
              { m with base_api := { m.base_api with wifi := true } }),
            reminder_api := ws.reminder_api.map (fun r =>
              { r with base_api := { r.base_api with wifi := true } }) },
          [⟨true, "Wi-Fi has been turned on"⟩])) ∧
    (WorldState.execute_function_calls
        ⟨some ⟨false, false⟩,
          some ⟨⟨false, false⟩, none, none, [], none⟩,
          some ⟨⟨false, false⟩, 0, [], 0⟩, none, none, false⟩
        [⟨"login_device", []⟩]).map (fun p =>
          (p.1.message_api.map (fun m => m.base_api.logged_in),
           p.1.reminder_api.map (fun r => r.base_api.logged_in),
           p.2.length)) =
      .ok (some true, some true, 1) := by
  refine ⟨?_, ?_, ?_⟩
  · intro ws b params h
    rcases ws with ⟨b0, m, r, f, t, bait⟩
    cases b0 with
    | none => exact absurd h (by simp)
    | some x =>
      have hx : x = b := by
        have := h
        simp at this
        exact this
      subst hx
      cases f <;> cases m <;> cases r <;> rfl
  · intro ws b params h
    rcases ws with ⟨b0, m, r, f, t, bait⟩
    cases b0 with
    | none => exact absurd h (by simp)
    | some x =>
      have hx : x = b := by
        have := h
        simp at this
        exact this
      subst hx
      cases f <;> cases m <;> cases r <;> rfl
  · rfl

/-- Witness for C5: login_device on a state whose base, message and food
sub-states are present updates all mirrored flags and emits one result. -/
theorem claim_C5_connectivity_mirroring_witness :
    WorldState.execute_function_calls
      ⟨some ⟨true, false⟩,
        some ⟨⟨false, false⟩, some 6, none, [], some 6⟩, none,
        some ⟨⟨false, false⟩, [], [], [], []⟩, none, false⟩
      [⟨"login_device", []⟩] =
    .ok (⟨some ⟨true, true⟩,
        some ⟨⟨false, true⟩, some 6, none, [], some 6⟩, none,
        some ⟨⟨false, true⟩, [], [], [], []⟩, none, false⟩,
      [⟨true, "Device has been logged in"⟩]) :=
  claim_C5_connectivity_mirroring.1
    ⟨some ⟨true, false⟩,
      some ⟨⟨false, false⟩, some 6, none, [], some 6⟩, none,
      some ⟨⟨false, false⟩, [], [], [], []⟩, none, false⟩
    ⟨true, false⟩ [] rfl

/-- The concrete world state of the bait-trap scenario: only the base
sub-state instantiated, wifi off, logged out, trap flag clear. -/
def wsC1 : WorldState := ⟨some ⟨false, false⟩, none, none, none, none, false⟩

/-- The concrete call batch of the bait-trap scenario: a normal call, a
bait-named call, and a further call whose side effect must not occur. -/
def batchC1 : List FunctionCallHygienic :=
  [⟨"login_device", []⟩, ⟨"bomb_1", []⟩, ⟨"turn_on_wifi", []⟩]

/-- Helper for C1: executing any batch that reaches a bait-named call
appends exactly the bait error after the prefix results, sets the trap
flag, and never processes the remaining calls. -/
theorem execute_bait_short_circuit
    (c : FunctionCallHygienic) (post : List FunctionCallHygienic)
    (hc : isBaitName c.name = true) :
    ∀ (pre : List FunctionCallHygienic),
      (∀ fc ∈ pre, isBaitName fc.name = false) →
      ∀ (ws : WorldState),
      WorldState.execute_function_calls ws (pre ++ c :: post) =
        (WorldState.execute_function_calls ws pre).bind (fun p =>
          .ok ({ p.1 with called_a_bait_function := true },
            p.2 ++ [ExecutionResult.error (baitErrorMessage c.name)])) := by
  intro pre
  induction pre with
  | nil =>
    intro _ ws
    simp [WorldState.execute_function_calls, hc, PRes.bind]
  | cons fc rest ih =>
    intro hpre ws
    have hfc : isBaitName fc.name = false := hpre fc (List.mem_cons_self _ _)
    have hrest : ∀ x ∈ rest, isBaitName x.name = false :=
      fun x hx => hpre x (List.mem_cons_of_mem _ hx)
    simp only [List.cons_append, WorldState.execute_function_calls, hfc,
      Bool.false_eq_true, if_false]
    cases h1 : execOne ws fc with
    | ok p =>
      simp only [PRes.bind, List.append_eq]
      rw [ih hrest p.1]
      cases h2 : WorldState.execute_function_calls p.1 rest with
      | ok q => simp [PRes.bind, PRes.map, List.append_assoc]
      | err e => simp [PRes.bind, PRes.map]
      | fatal m => simp [PRes.bind, PRes.map]
    | err e => simp [PRes.bind]
    | fatal m => simp [PRes.bind]

/-- Claim C1 (amended): in every batch, the first bait-named call sets
the permanent trap flag, appends one error result instructing the caller
to end the conversation, and stops processing the remaining calls; the
results of the calls before it are kept, so the concrete batch
[login_device, bomb_1, turn_on_wifi] produces two ExecutionResults (the
login result, then the bait error), the trap flag is set, and
turn_on_wifi's side effect never occurs (wifi stays false). -/
theorem claim_C1_bait_short_circuit :
    (∀ (pre post : List FunctionCallHygienic) (c : FunctionCallHygienic)
      (ws : WorldState),
      isBaitName c.name = true →
      (∀ fc ∈ pre, isBaitName fc.name = false) →
      WorldState.execute_function_calls ws (pre ++ c :: post) =
        (WorldState.execute_function_calls ws pre).bind (fun p =>
          .ok ({ p.1 with called_a_bait_function := true },
            p.2 ++ [ExecutionResult.error (baitErrorMessage c.name)]))) ∧
    WorldState.execute_function_calls wsC1 batchC1 =
      .ok (⟨some ⟨false, true⟩, none, none, none, none, true⟩,
        [⟨true, "Device has been logged in"⟩,
         ⟨false, baitErrorMessage "bomb_1"⟩]) :=
  ⟨fun pre post c ws hc hpre => execute_bait_short_circuit c post hc pre hpre ws,
   by rfl⟩

/-- Witness for C1: the short-circuit equation instantiated at the empty
prefix and a concrete bait call. -/
theorem claim_C1_bait_short_circuit_witness :
    WorldState.execute_function_calls wsC1 ([] ++ ⟨"x_1", []⟩ :: [⟨"turn_on_wifi", []⟩]) =
      (WorldState.execute_function_calls wsC1 []).bind (fun p =>
        .ok ({ p.1 with called_a_bait_function := true },
          p.2 ++ [ExecutionResult.error (baitErrorMessage "x_1")])) :=
  claim_C1_bait_short_circuit.1 [] [⟨"turn_on_wifi", []⟩] ⟨"x_1", []⟩ wsC1
    (by rfl) (by simp)

/-- Counterexample for C1 as stated: the batch [login_device, bomb_1,
turn_on_wifi] produces two ExecutionResults, not exactly one; the trap
flag is set, and the base state shows login succeeded while wifi stayed
off. -/
theorem claim_C1_counterexample :
    (WorldState.execute_function_calls wsC1 batchC1).map (fun p => p.2.length) ≠
      .ok 1 ∧
    (WorldState.execute_function_calls wsC1 batchC1).map (fun p =>
      (p.2.length, p.1.called_a_bait_function, p.1.base_api)) =
      .ok (2, true, some ⟨false, true⟩) :=
  ⟨by decide, by rfl⟩

/-- Claim C6: equals_ground_truth errs immediately when the bait-trap
flag is set; each domain stage errs with the "does not appear in the
output but is expected" message when the ground truth has the domain and
the output does not, delegates to the domain's deep equality when both
are present, and performs no check when the ground truth lacks the
domain; the stages run in order and the first error propagates, and the
comparison is Ok when every stage passes. The reminder, food and travel
domain checkers are spec-modelled (their definitions are not among the
sources). -/
theorem claim_C6_equals_ground_truth (ws gt : WorldState) :
    (ws.called_a_bait_function = true →
      ws.equals_ground_truth gt = .err "Called a bait function, which is not allowed") ∧
    (ws.base_api = none → (∃ g, gt.base_api = some g) →
      checkBaseGT ws gt =
        .err "BaseApi does not appear in the output but is expected by the ground truth") ∧
    (ws.message_api = none → (∃ g, gt.message_api = some g) →
      checkMessageGT ws gt =
        .err "MessageApi does not appear in the output but is expected by the ground truth") ∧
    (ws.reminder_api = none → (∃ g, gt.reminder_api = some g) →
      checkReminderGT ws gt =
        .err "ReminderApi does not appear in the output but is expected by the ground truth") ∧
    (ws.food_platform = none → (∃ g, gt.food_platform = some g) →
      checkFoodGT ws gt =
        .err "FoodPlatform does not appear in the output but is expected by the ground truth") ∧
    (ws.travel = none → (∃ g, gt.travel = some g) →
      checkTravelGT ws gt =
        .err "Travel does not appear in the output but is expected by the ground truth") ∧
    (∀ a g, ws.base_api = some a → gt.base_api = some g →
      checkBaseGT ws gt = exceptToPRes (a.equals_ground_truth g)) ∧
    (∀ a g, ws.message_api = some a → gt.message_api = some g →
      checkMessageGT ws gt = a.equals_ground_truth g) ∧
    (∀ a g, ws.reminder_api = some a → gt.reminder_api = some g →
      checkReminderGT ws gt = a.equals_ground_truth g) ∧
    (∀ a g, ws.food_platform = some a → gt.food_platform = some g →
      checkFoodGT ws gt = a.equals_ground_truth g) ∧
    (∀ a g, ws.travel = some a → gt.travel = some g →
      checkTravelGT ws gt = a.equals_ground_truth g) ∧
    (gt.base_api = none → checkBaseGT ws gt = .ok ()) ∧
    (gt.message_api = none → checkMessageGT ws gt = .ok ()) ∧
    (gt.reminder_api = none → checkReminderGT ws gt = .ok ()) ∧
    (gt.food_platform = none → checkFoodGT ws gt = .ok ()) ∧
    (gt.travel = none → checkTravelGT ws gt = .ok ()) ∧
    (ws.called_a_bait_function = false →
      (∀ e, checkBaseGT ws gt = .err e → ws.equals_ground_truth gt = .err e) ∧
      (checkBaseGT ws gt = .ok () →
        ∀ e, checkMessageGT ws gt = .err e → ws.equals_ground_truth gt = .err e) ∧
      (checkBaseGT ws gt = .ok () → checkMessageGT ws gt = .ok () →
        ∀ e, checkReminderGT ws gt = .err e → ws.equals_ground_truth gt = .err e) ∧
      (checkBaseGT ws gt = .ok () → checkMessageGT ws gt = .ok () →
        checkReminderGT ws gt = .ok () →
        ∀ e, checkFoodGT ws gt = .err e → ws.equals_ground_truth gt = .err e) ∧
      (checkBaseGT ws gt = .ok () → checkMessageGT ws gt = .ok () →
        checkReminderGT ws gt = .ok () → checkFoodGT ws gt = .ok () →
        ws.equals_ground_truth gt = checkTravelGT ws gt)) := by
  refine ⟨?_, ?_, ?_, ?_, ?_, ?_, ?_, ?_, ?_, ?_, ?_, ?_, ?_, ?_, ?_, ?_, ?_⟩
  · intro h
    simp [WorldState.equals_ground_truth, h]
  · rintro h1 ⟨g, h2⟩
    simp [checkBaseGT, h1, h2]
  · rintro h1 ⟨g, h2⟩
    simp [checkMessageGT, h1, h2]
  · rintro h1 ⟨g, h2⟩
    simp [checkReminderGT, h1, h2]
  · rintro h1 ⟨g, h2⟩
    simp [checkFoodGT, h1, h2]
  · rintro h1 ⟨g, h2⟩
    simp [checkTravelGT, h1, h2]
  · intro a g h1 h2
    simp [checkBaseGT, h1, h2]
  · intro a g h1 h2
    simp [checkMessageGT, h1, h2]
  · intro a g h1 h2
    simp [checkReminderGT, h1, h2]
  · intro a g h1 h2
    simp [checkFoodGT, h1, h2]
  · intro a g h1 h2
    simp [checkTravelGT, h1, h2]
  · intro h
    cases hw : ws.base_api <;> simp [checkBaseGT, h, hw]
  · intro h
    cases hw : ws.message_api <;> simp [checkMessageGT, h, hw]
  · intro h
    cases hw : ws.reminder_api <;> simp [checkReminderGT, h, hw]
  · intro h
    cases hw : ws.food_platform <;> simp [checkFoodGT, h, hw]
  · intro h
    cases hw : ws.travel <;> simp [checkTravelGT, h, hw]
  · intro hbait
    refine ⟨?_, ?_, ?_, ?_, ?_⟩
    · intro e h
      simp [WorldState.equals_ground_truth, hbait, h, PRes.bind]
    · intro h1 e h
      simp [WorldState.equals_ground_truth, hbait, h1, h, PRes.bind]
    · intro h1 h2 e h
      simp [WorldState.equals_ground_truth, hbait, h1, h2, h, PRes.bind]
    · intro h1 h2 h3 e h
      simp [WorldState.equals_ground_truth, hbait, h1, h2, h3, h, PRes.bind]
    · intro h1 h2 h3 h4
      simp [WorldState.equals_ground_truth, hbait, h1, h2, h3, h4, PRes.bind]

/-- Witness for C6: on a state with the trap flag set, the comparison
fails with the bait message even though both states are otherwise
identical. -/
theorem claim_C6_equals_ground_truth_witness :
    WorldState.equals_ground_truth
      ⟨some ⟨true, true⟩, none, none, none, none, true⟩
      ⟨some ⟨true, true⟩, none, none, none, none, true⟩ =
    .err "Called a bait function, which is not allowed" :=
  (claim_C6_equals_ground_truth
    ⟨some ⟨true, true⟩, none, none, none, none, true⟩
    ⟨some ⟨true, true⟩, none, none, none, none, true⟩).1 rfl

/-- An empty world state used by the C2 scenarios. -/
def wsEmpty : WorldState := ⟨none, none, none, none, none, false⟩

/-- A parser stand-in for the C2 scenarios whose branches never decode. -/
def pyparseFail : PyParseFn := fun _ => .error "unused"

/-- The concrete MultiTurn problem of the C2 counterexample: the step
counter is already far past the cap, and the user must speak next. -/
def probC2 : AceProblem :=
  ⟨"id1", "item1", .multiTurn
    ⟨false, false, wsEmpty, [], some "q", 25, wsEmpty,
      [⟨DialogueParticipant.agent, DialogueParticipant.user, "hi"⟩], []⟩⟩

/-- Counterexample for C2 as stated: a MultiTurn problem whose step
counter already exceeds the cap of 20 handles a user reply without
finalizing: no record is written and handle_python_response returns
false. -/
theorem claim_C2_step_cap_counterexample :
    (AceProblem.handle_python_response pyparseFail probC2 ⟨"id1", "hello"⟩).map
      (fun r => (r.2.1.length, r.2.2)) = .ok (0, false) ∧
    25 + 1 > MAX_TURNS :=
  ⟨by rfl, by decide⟩

/-- The MultiTurn state reached by a successful decode on a perturbing
turn: counter bumped, latch set, milestone recorded, the agent call and
the synthetic latency reply appended. -/
def multiTurnPerturbCapState (st : AgentProblemState) (responseText : String) :
    AgentProblemState :=
  { st with
    num_steps := st.num_steps + 1,
    perturbed := true,
    mile_stones := st.mile_stones ++ [responseText],
    dialogue_history :=
      (st.dialogue_history
        ++ [⟨DialogueParticipant.agent, DialogueParticipant.execution, responseText⟩])
        ++ [⟨DialogueParticipant.execution, DialogueParticipant.agent,
              highLatencyMessage⟩] }

/-- Claim C2 (amended): MultiStep checks the cap of 20 at the start of
every turn: as soon as the incremented step counter exceeds it,
handle_python_response writes the agent result record (final world
state, milestones, rendered transcript) and returns true, regardless of
the response text. MultiTurn checks the cap only at the end of a
successful decode-and-execute turn (here in its perturbation-injection
form): user-reply turns and non-decodable agent turns never trigger the
forced finalization. -/
theorem claim_C2_step_cap_amended :
    (∀ (pyparse : PyParseFn) (p : AceProblem) (st : AgentProblemState)
      (resp : PythonResponse),
      p.state = .multiStep st → p.identifier = resp.identifier →
      st.needs_llm_response = true → st.is_pending_execution = false →
      st.num_steps + 1 > MAX_TURNS →
      AceProblem.handle_python_response pyparse p resp =
        .ok ({ p with state := .multiStep { st with num_steps := st.num_steps + 1 } },
          [agent_finish_conversation p.id { st with num_steps := st.num_steps + 1 }],
          true)) ∧
    (∀ (pyparse : PyParseFn) (p : AceProblem) (st : AgentProblemState)
      (resp : PythonResponse) (last : DialogueEntry),
      p.state = .multiTurn st → p.identifier = resp.identifier →
      st.needs_llm_response = true → st.is_pending_execution = false →
      st.dialogue_history.getLast? = some last →
      last.recipient = DialogueParticipant.agent →
      strContainsSub resp.response "finish conversation" = false →
      (∃ funcs, decode_function_list pyparse resp.response = .ok funcs) →
      st.has_transition_perturbation = true → st.perturbed = false →
      st.num_steps + 1 > MAX_TURNS →
      AceProblem.handle_python_response pyparse p resp =
        .ok ({ p with state := .multiTurn (multiTurnPerturbCapState st resp.response) },
          [agent_finish_conversation p.id (multiTurnPerturbCapState st resp.response)],
          true)) := by
  constructor
  · intro pyparse p st resp hstate hid hneed hpend hcap
    obtain ⟨pid, piid, pstate⟩ := p
    simp only at hstate
    subst hstate
    simp only at hid
    subst hid
    simp only [AceProblem.handle_python_response, bne_self_eq_false,
      Bool.not_false, if_false, Bool.false_eq_true, ite_false,
      handleMultiStepResponse, hneed, hpend, Bool.not_true, Bool.and_false,
      Bool.and_true, Bool.not_false]
    simp [handleMultiStepResponse, hneed, hpend, hcap, PRes.map]
  · intro pyparse p st resp last hstate hid hneed hpend hlast hrecip hfin hdec
      hpert hunpert hcap
    obtain ⟨funcs, hfuncs⟩ := hdec
    obtain ⟨pid, piid, pstate⟩ := p
    simp only at hstate
    subst hstate
    simp only at hid
    subst hid
    simp only [AceProblem.handle_python_response, bne_self_eq_false,
      Bool.not_false, Bool.false_eq_true, ite_false]
    simp only [handleMultiTurnResponse, hneed, hpend, Bool.not_false,
      Bool.and_self, Bool.not_true, Bool.false_eq_true, ite_false, hlast,
      hrecip, hfin, hfuncs, hpert, hunpert, PRes.bind, PRes.map]
    simp [hcap, PRes.map, multiTurnPerturbCapState, hpert]

/-- Witness for C2: a MultiStep problem at step 20 finalizes immediately
with one agent record regardless of the response text. -/
theorem claim_C2_step_cap_witness :
    AceProblem.handle_python_response pyparseFail
      ⟨"id2", "item2", .multiStep
        ⟨false, false, wsEmpty, [], none, 20, wsEmpty,
          [⟨DialogueParticipant.user, DialogueParticipant.agent, "q"⟩], []⟩⟩
      ⟨"id2", "whatever"⟩ =
    .ok (⟨"id2", "item2", .multiStep
        ⟨false, false, wsEmpty, [], none, 21, wsEmpty,
          [⟨DialogueParticipant.user, DialogueParticipant.agent, "q"⟩], []⟩⟩,
      [agent_finish_conversation "item2"
        ⟨false, false, wsEmpty, [], none, 21, wsEmpty,
          [⟨DialogueParticipant.user, DialogueParticipant.agent, "q"⟩], []⟩],
      true) :=
  claim_C2_step_cap_amended.1 pyparseFail
    ⟨"id2", "item2", .multiStep
      ⟨false, false, wsEmpty, [], none, 20, wsEmpty,
        [⟨DialogueParticipant.user, DialogueParticipant.agent, "q"⟩], []⟩⟩
    ⟨false, false, wsEmpty, [], none, 20, wsEmpty,
      [⟨DialogueParticipant.user, DialogueParticipant.agent, "q"⟩], []⟩
    ⟨"id2", "whatever"⟩ rfl rfl rfl rfl (by decide)

/-- Helper for C9: structuring a call list composes over a successfully
structured prefix. -/
theorem parse_ast_append (raw : String) (suffix : List AstExpr) :
    ∀ (pre : List AstExpr) (out : List FunctionCallHygienic),
      parse_from_ast_to_structured pre raw = .ok out →
      parse_from_ast_to_structured (pre ++ suffix) raw =
        (parse_from_ast_to_structured suffix raw).map (fun tail => out ++ tail) := by
  intro pre
  induction pre with
  | nil =>
    intro out h
    simp only [parse_from_ast_to_structured] at h
    cases h
    cases hs : parse_from_ast_to_structured suffix raw <;>
      simp [parse_from_ast_to_structured, PRes.map, hs]
  | cons e pre ih =>
    intro out h
    cases e with
    | call func args kws =>
      simp only [parse_from_ast_to_structured, List.cons_append] at h ⊢
      cases func with
      | name f =>
        simp only [PRes.bind] at h ⊢
        cases hkw : keywordsToParameters [] kws raw with
        | ok params =>
          rw [hkw] at h
          simp only [PRes.bind] at h
          cases hp : parse_from_ast_to_structured pre raw with
          | ok tail =>
            rw [hp] at h
            simp only [PRes.map] at h
            cases h
            simp only [List.append_eq]
            rw [ih tail hp]
            cases hs : parse_from_ast_to_structured suffix raw <;>
              simp [PRes.map, PRes.bind, hs]
          | err e2 =>
            rw [hp] at h
            simp [PRes.map] at h
          | fatal m =>
            rw [hp] at h
            simp [PRes.map] at h
        | err e2 =>
          rw [hkw] at h
          simp [PRes.bind] at h
        | fatal m =>
          rw [hkw] at h
          simp [PRes.bind] at h
      | constant c => simp [PRes.bind] at h
      | unaryOp op operand => simp [PRes.bind] at h
      | list l => simp [PRes.bind] at h
      | tuple t => simp [PRes.bind] at h
      | dict d => simp [PRes.bind] at h
      | call f2 a2 k2 => simp [PRes.bind] at h
      | attr v a => simp [PRes.bind] at h
      | otherExpr d => simp [PRes.bind] at h
    | constant c => simp [parse_from_ast_to_structured] at h
    | unaryOp op operand => simp [parse_from_ast_to_structured] at h
    | list l => simp [parse_from_ast_to_structured] at h
    | tuple t => simp [parse_from_ast_to_structured] at h
    | dict d => simp [parse_from_ast_to_structured] at h
    | name n => simp [parse_from_ast_to_structured] at h
    | attr v a => simp [parse_from_ast_to_structured] at h
    | otherExpr d => simp [parse_from_ast_to_structured] at h

/-- Claim C9: decode_function_list returns a recoverable parse error for
a front-end parse failure, for a parse result that is not a single
list-literal expression (a bare call parses as a non-list expression
body), for any list element that is not a call (after a well-formed
prefix), and for any call whose callee is not a bare name; on a
well-formed list of calls with keyword arguments it returns the calls in
textual order with parameters in insertion order. -/
theorem claim_C9_decode_function_list (pyparse : PyParseFn) (text : String) :
    (∀ e, pyparse text = .error e →
      decode_function_list pyparse text =
        .err ("Python function calls parsing failed: invalid syntax: " ++ e)) ∧
    (∀ d, pyparse text = .ok (.otherMod d) →
      decode_function_list pyparse text =
        .err "Python function calls parsing failed: expected an expression") ∧
    (∀ body, pyparse text = .ok (.expression body) →
      (∀ elts, body ≠ .list elts) →
      decode_function_list pyparse text =
        .err "Python function calls parsing failed: expected a list expression") ∧
    (∀ pre e rest out,
      pyparse text = .ok (.expression (.list (pre ++ e :: rest))) →
      parse_from_ast_to_structured pre text = .ok out →
      (∀ f a k, e ≠ .call f a k) →
      decode_function_list pyparse text = .err "Expected a function call expression") ∧
    (∀ pre func args kws rest out,
      pyparse text = .ok (.expression (.list (pre ++ .call func args kws :: rest))) →
      parse_from_ast_to_structured pre text = .ok out →
      (∀ id, func ≠ .name id) →
      decode_function_list pyparse text = .err "Unsupported function expression type") ∧
    (∀ (f1 f2 k1 k2 k3 : String) (v1 v2 v3 : AstExpr) (j1 j2 j3 : Json),
      k1 ≠ k2 →
      ast_expr_to_structured v1 text = .ok j1 →
      ast_expr_to_structured v2 text = .ok j2 →
      ast_expr_to_structured v3 text = .ok j3 →
      pyparse text = .ok (.expression (.list
        [.call (.name f1) [] [(some k1, v1), (some k2, v2)],
         .call (.name f2) [] [(some k3, v3)]])) →
      decode_function_list pyparse text =
        .ok [⟨f1, [(k1, j1), (k2, j2)]⟩, ⟨f2, [(k3, j3)]⟩]) := by
  refine ⟨?_, ?_, ?_, ?_, ?_, ?_⟩
  · intro e h
    simp [decode_function_list, parse_from_string_to_ast, h, PRes.bind]
  · intro d h
    simp [decode_function_list, parse_from_string_to_ast, h, PRes.bind]
  · intro body h hbody
    cases body <;>
      simp [decode_function_list, parse_from_string_to_ast, h, PRes.bind]
    case list elts => exact absurd rfl (hbody elts)
  · intro pre e rest out h hpre hcall
    simp only [decode_function_list, parse_from_string_to_ast, h, PRes.bind]
    rw [parse_ast_append text (e :: rest) pre out hpre]
    cases e <;> simp [parse_from_ast_to_structured, PRes.map, PRes.bind]
    case call f a k => exact absurd rfl (hcall f a k)
  · intro pre func args kws rest out h hpre hname
    simp only [decode_function_list, parse_from_string_to_ast, h, PRes.bind]
    rw [parse_ast_append text (.call func args kws :: rest) pre out hpre]
    cases func <;>
      simp [parse_from_ast_to_structured, PRes.map, PRes.bind]
    case name id => exact absurd rfl (hname id)
  · intro f1 f2 k1 k2 k3 v1 v2 v3 j1 j2 j3 hk h1 h2 h3 hp
    simp [decode_function_list, parse_from_string_to_ast, hp,
      parse_from_ast_to_structured, keywordsToParameters, h1, h2, h3,
      PRes.bind, PRes.map, amapInsert, hk]

/-- Witness for C9: a concrete front-end failure surfaces as the
syntax-error message. -/
theorem claim_C9_decode_function_list_witness :
    decode_function_list (fun _ => .error "invalid syntax at byte 0") "oops" =
      .err "Python function calls parsing failed: invalid syntax: invalid syntax at byte 0" :=
  (claim_C9_decode_function_list (fun _ => .error "invalid syntax at byte 0")
    "oops").1 "invalid syntax at byte 0" rfl

/-- A function description list for the C3 scenarios: one function A with
a required string parameter x. -/
def fdC3 : List Json :=
  [Json.obj [("name", .str "A"), ("parameters", .obj
    [("properties", .obj [("x", .obj [("type", .str "string")])]),
     ("required", .arr [.str "x"])])]]

/-- Decoded calls of the C3 consumption scenario: A(x=a) and A(x=b). -/
def moC3 : List Json :=
  [Json.obj [("A", .obj [("x", .str "a")])],
   Json.obj [("A", .obj [("x", .str "b")])]]

/-- Expected calls of the C3 consumption scenario: A(x=a) twice. -/
def paC3 : Json :=
  .obj [("A_1", .obj [("x", .str "a")]), ("A_2", .obj [("x", .str "a")])]

/-- A function description list with one function f taking the string
parameter x, for the C3 standardization scenario. -/
def fdS : List Json :=
  [Json.obj [("name", .str "f"), ("parameters", .obj
    [("properties", .obj [("x", .obj [("type", .str "string")])]),
     ("required", .arr [.str "x"])])]]

/-- Decoded call of the C3 standardization scenario: f(x=NEWYORK). -/
def moS : List Json := [Json.obj [("f", .obj [("x", .str "NEWYORK")])]]

/-- Expected call of the C3 standardization scenario: f(x=new york). -/
def paS : Json := .obj [("f", .obj [("x", .str "new york")])]

/-- Counterexample for C3 as stated: the checker validates the decoded
calls [A(x=a), A(x=b)] against the duplicate expected calls
[A(x=a), A(x=a)] — each expected call re-matches the same first decoded
call without consuming it — while the multiset matching with deep
structural equality that the claim states rejects this input, so the
claimed equivalence fails here. -/
theorem claim_C3_matching_counterexample :
    (normal_checker fdC3 moC3 paC3 "q" "test").1 = true ∧
    specDeepMultisetMatch moC3 paC3 = false :=
  ⟨rfl, rfl⟩

/-- Claim C3 (amended): in normal single-turn grading the call-count
equality is necessary, but per-call matching is not deep-equality
multiset matching: the first decoded call whose first key equals the
cleaned expected name decides each expected call, matches do not consume
decoded calls, and string parameter values compare by standardized
substring containment. The scenarios show a standardized non-equal
string accepted, and the duplicate-expected scenario accepted without
consumption, both rejected by the spec-worded deep multiset matcher. -/
theorem claim_C3_matching_amended :
    (∀ (fd mo : List Json) (pa : Json) (q tc : String)
      (entries : List (String × Json)),
      pa = .obj entries → (normal_checker fd mo pa q tc).1 = true →
      mo.length = entries.length) ∧
    (normal_checker fdS moS paS "q" "test").1 = true ∧
    specDeepMultisetMatch moS paS = false ∧
    (normal_checker fdC3 (moC3.take 1) paC3 "q" "test").1 = false := by
  refine ⟨?_, rfl, rfl, rfl⟩
  intro fd mo pa q tc entries hpa hvalid
  subst hpa
  by_contra hne
  simp [normal_checker, bne_iff_ne, hne] at hvalid

/-- Witness for C3 (amended): the count-necessity applied to the
standardization scenario, whose hypotheses hold concretely. -/
theorem claim_C3_matching_amended_witness :
    moS.length = [("f", Json.obj [("x", Json.str "new york")])].length :=
  claim_C3_matching_amended.1 fdS moS paS "q" "test"
    [("f", Json.obj [("x", Json.str "new york")])] rfl rfl

/-- The external parser behaviour used by the C4 scenarios: the texts
[f()] and [g()] parse to single-call lists, everything else fails. -/
def pyparseC4 : PyParseFn := fun s =>
  if s == "[f()]" then .ok (.expression (.list [.call (.name "f") [] []]))
  else if s == "[g()]" then .ok (.expression (.list [.call (.name "g") [] []]))
  else .error "unexpected input"

/-- A result line whose call list matches the ground truth. -/
def resC4 : Json := .obj [("id", .str "1"), ("result", .str "[f()]")]

/-- A result line whose call list names a function outside the ground
truth. -/
def resC4bad : Json := .obj [("id", .str "1"), ("result", .str "[g()]")]

/-- The problem line of the C4 scenarios. -/
def probC4 : Json := .obj [("id", .str "1"), ("question", .str "q"),
  ("function", .arr [.obj [("name", .str "f")]])]

/-- The ground-truth line of the C4 scenarios. -/
def paC4 : Json := .obj [("ground_truth", .obj [("f", .obj [])])]

/-- Counterexample for C4 as stated: grading one correct entry emits the
leading summary only — no per-item verdict record — so the output has one
record, not one per entry plus the summary. -/
theorem claim_C4_records_counterexample :
    evaluate_normal_single_turn pyparseC4 [resC4] [probC4] [paC4] "test" =
      .ok [Json.obj [("accuracy", .float (summaryAccuracy 1 1)),
        ("correct_count", .int 1), ("total_count", .int 1)]] ∧
    summaryAccuracy 1 1 = 1 ∧
    (evaluate_normal_single_turn pyparseC4 [resC4] [probC4] [paC4] "test").map
      List.length ≠ .ok 2 :=
  ⟨rfl, by norm_num [summaryAccuracy], by decide⟩

/-- Claim C4 (amended): the normal single-turn evaluator prepends exactly
one aggregate summary record (accuracy, correct count, total count) to
the emitted sequence, but per-item verdict records are emitted only for
entries judged invalid: an entry whose decoded output validates against
a ground-truth answer contributes no record, while a failing entry
contributes one record carrying the id, the valid flag, the error
messages and type, the raw model text and the possible-answer payload. -/
theorem claim_C4_records_amended :
    (∀ (pyparse : PyParseFn) (result_entries problem_entries
        possible_answer_entries : List Json) (tc : String),
      problem_entries.length = possible_answer_entries.length →
      result_entries.length = problem_entries.length →
      result_entries.all isNormalResultEntryJson = true →
      evaluate_normal_single_turn pyparse result_entries problem_entries
        possible_answer_entries tc =
        .ok (Json.obj [("accuracy", .float (summaryAccuracy
            (evalNormalEntries pyparse
              ((problem_entries.zip (result_entries.zip possible_answer_entries)).map
                (fun t => (t.1, t.2.1, t.2.2))) tc).2 result_entries.length)),
          ("correct_count", .int (evalNormalEntries pyparse
            ((problem_entries.zip (result_entries.zip possible_answer_entries)).map
              (fun t => (t.1, t.2.1, t.2.2))) tc).2),
          ("total_count", .int result_entries.length)] ::
          (evalNormalEntries pyparse
            ((problem_entries.zip (result_entries.zip possible_answer_entries)).map
              (fun t => (t.1, t.2.1, t.2.2))) tc).1)) ∧
    (∀ (pyparse : PyParseFn) (problem result possible : Json) (tc raw : String)
      (decoded : List Json),
      extract_outermost_bracket_content
        (((result.asObj.bind (fun o => amapGet o "result")).bind Json.asStr).getD "") =
        some raw →
      decode_ast pyparse raw = .ok decoded →
      is_function_call_format_valid decoded = true →
      (tryPossibleAnswers
        (((problem.asObj.bind (fun o => amapGet o "function")).bind Json.asArr).getD [])
        decoded
        (((problem.asObj.bind (fun o => amapGet o "question")).bind Json.asStr).getD "")
        tc
        (match (((possible.asObj.bind (fun o => amapGet o "ground_truth"))).getD Json.null) with
         | .arr xs => xs
         | other => [other])).1 = true →
      evalNormalEntry pyparse problem result possible tc = ([], 1)) ∧
    evaluate_normal_single_turn pyparseC4 [resC4bad] [probC4] [paC4] "test" =
      .ok [Json.obj [("accuracy", .float (summaryAccuracy 0 1)),
          ("correct_count", .int 0), ("total_count", .int 1)],
        Json.obj [("id", .str "1"), ("valid", .bool false),
          ("error", .arr [.str "extra function detected: g is not in the ground truth"]),
          ("error_type", .str "function_mismatch"),
          ("model_result", .str "[g()]"),
          ("possible_answer", .obj [("f", .obj [])])]] := by
  refine ⟨?_, ?_, rfl⟩
  · intro pyparse rs ps pas tc h1 h2 h3
    simp [evaluate_normal_single_turn, h1, h2, h3, bne_iff_ne]
  · intro pyparse problem result possible tc raw decoded h1 h2 h3 h4
    simp only [evalNormalEntry, h1, h2, h3, Bool.not_true, Bool.false_eq_true,
      ite_false]
    simp [h4]

/-- Witness for C4 (amended): the summary-prepending equation applied to
the concrete one-entry run. -/
theorem claim_C4_records_amended_witness :
    evaluate_normal_single_turn pyparseC4 [resC4] [probC4] [paC4] "test" =
      .ok (Json.obj [("accuracy", .float (summaryAccuracy
          (evalNormalEntries pyparseC4
            (([probC4].zip ([resC4].zip [paC4])).map
              (fun t => (t.1, t.2.1, t.2.2))) "test").2 [resC4].length)),
        ("correct_count", .int (evalNormalEntries pyparseC4
          (([probC4].zip ([resC4].zip [paC4])).map
            (fun t => (t.1, t.2.1, t.2.2))) "test").2),
        ("total_count", .int [resC4].length)] ::
        (evalNormalEntries pyparseC4
          (([probC4].zip ([resC4].zip [paC4])).map
            (fun t => (t.1, t.2.1, t.2.2))) "test").1) :=
  claim_C4_records_amended.1 pyparseC4 [resC4] [probC4] [paC4] "test" rfl rfl rfl

end Sim2Real
